import Mathlib

/-!
TGUI `Window`: callback queue, event correction, clip save/restore, surface ownership,
pass-through members, and the double click of a `Label`.

A shallow embedding of `src/TGUI/Window.cpp`; the part on `Label` follows
`include/TGUI/Label.hpp` and, for the member functions that header only declares, the spec.

* The members of `tgui::Window` that the file reads or writes are the fields of the
  structure `Window`.
* Everything the member functions call into but do not implement (the global callback
  functions, the event manager, the frame clock, OpenGL, the `sf::RenderWindow` heap
  object) is a collaborator. Calls into collaborators are appended, in program order, to
  `Env.trace`; the part of their state that `Window.cpp` reads back (the scissor state, the
  surface size) is kept in `Env`.
* `Callback` and the handler type `boost::function<void(const Callback&)>` are declared
  outside `Window.cpp`; they are the type parameters `κ` and `η`. A handler receives a
  `const Callback&` and is assumed not to re-enter the window while it runs.
* A finite `float` is the rational number it stands for. An operation on floats is the exact
  operation followed by `round32`, the rounding of IEEE 754 binary32 to the nearest
  representable value with ties to even: `float` expressions are evaluated in `float`
  precision. Overflow to infinity is not modelled. The conversion `static_cast<int>`
  truncates toward zero and is defined only for values within the range of `int`; theorems
  about a converted value carry that range as a hypothesis.
* `unsigned int` and `GLsizei` are 32 bits wide; the conversion between them wraps.
-/

namespace tgui

/-- Identity of an `sf::RenderWindow` heap object: the value of the pointer `m_Window`. -/
abbrev SurfaceId := Nat

/-- An `sf::Time`, counted in microseconds. -/
abbrev Time := Int

/-- An `sf::Event`, reduced to what `Window::handleEvent` inspects: the three event types that
carry pointer coordinates keep their fields, every other event type keeps its type tag and an
uninterpreted payload. -/
inductive Event where
  | MouseMoved (x y : Int)
  | MouseButtonPressed (button : Nat) (x y : Int)
  | MouseButtonReleased (button : Nat) (x y : Int)
  | Other (type : Nat) (payload : List Int)
  deriving DecidableEq, Repr

/-- The part of the OpenGL state that `Window::drawGUI` reads and writes: the
`GL_SCISSOR_TEST` capability and the `GL_SCISSOR_BOX` rectangle `(x, y, width, height)`.
OpenGL never holds a box of negative width or height; the width and the height it holds are
`GLsizei` values, which `glGetIntegerv` reads back unchanged. -/
structure GLState where
  scissorTest : Bool
  scissorBox : Int × Int × Nat × Nat
  deriving DecidableEq, Repr

/-- Arguments of the three `sf::RenderWindow` constructors used by `Window.cpp`. -/
inductive SurfaceArgs where
  | none
  | mode (width height bitsPerPixel : Nat) (title : String) (style : Nat) (settings : Nat)
  | handle (handle : Nat) (settings : Nat)
  deriving DecidableEq, Repr

/-- A value passed to or returned by a member function of `sf::RenderWindow`. Objects and
references whose content `Window.cpp` never looks at (`sf::VideoMode`, `sf::View`,
`sf::Event&`, `sf::Color`, ...) are given by their identity. -/
inductive Value where
  | void
  | bool (b : Bool)
  | int (n : Int)
  | float (v : ℚ)
  | string (s : String)
  | vector2u (x y : Nat)
  | vector2i (x y : Int)
  | vector2f (x y : ℚ)
  | object (id : Nat)
  deriving DecidableEq, Repr

/-- A call `m_Window->name(args)` of a member function of the render surface. -/
structure SurfaceCall where
  name : String
  args : List Value
  deriving DecidableEq, Repr

/-- One call from `Window.cpp` into a collaborator. -/
inductive Call (κ η : Type) where
  /-- The call `(*it)(callback)` of a global callback function. -/
  | handler (h : η) (callback : κ)
  /-- The call `m_Window->mapPixelToCoords(Vector2i(x, y), m_Window->getView())`. -/
  | mapPixelToCoords (x y : Int)
  /-- The call `m_EventManager.handleEvent(event)`. -/
  | emHandleEvent (event : Event)
  /-- The call `m_Clock.restart()`. -/
  | clockRestart
  /-- The call `m_EventManager.updateTime(elapsedTime)`. -/
  | emUpdateTime (elapsedTime : Time)
  /-- The call `glEnable(GL_SCISSOR_TEST)`. -/
  | glEnableScissor
  /-- The call `glDisable(GL_SCISSOR_TEST)`. -/
  | glDisableScissor
  /-- The call `glScissor(x, y, width, height)`. -/
  | glScissor (x y width height : Int)
  /-- The call `drawObjectGroup(m_Window, sf::RenderStates::Default)`, with the scissor
  state it starts from. -/
  | drawObjectGroup (entry : GLState)
  /-- The expression `new sf::RenderWindow(...)`, with the object it returns. -/
  | newRenderWindow (id : SurfaceId) (args : SurfaceArgs)
  /-- The statement `delete m_Window`. -/
  | deleteRenderWindow (id : SurfaceId)
  /-- A call of a member function of the render surface made by a pass-through member. -/
  | surface (call : SurfaceCall)
  deriving DecidableEq, Repr

/-- What lies outside the `Window` object: the OpenGL scissor state, the current size of the
render surface (two `unsigned int`), the next unused surface identity, and the ordered log
of collaborator calls. -/
structure Env (κ η : Type) where
  gl : GLState
  surfaceSize : Nat × Nat
  nextSurface : SurfaceId
  trace : List (Call κ η)
  deriving DecidableEq, Repr

/-- The data members of `tgui::Window` used in `Window.cpp`. `m_Callback` is the
`std::queue<Callback>` with its front at the head of the list; `m_GlobalCallbackFunctions` is
the `std::list` of global callback functions from `begin()` to `end()`. -/
structure Window (κ η : Type) where
  m_Window : SurfaceId
  m_GroupFocused : Bool
  m_OwningWindow : Bool
  m_Callback : List κ
  m_GlobalCallbackFunctions : List η
  deriving DecidableEq, Repr

variable {κ η : Type}

/-- Appends one collaborator call to the log. -/
def Env.log (env : Env κ η) (c : Call κ η) : Env κ η :=
  { env with trace := env.trace ++ [c] }

/-! ## Callback queue -/

/-- `bool Window::pollCallback(Callback& callback)`. The second argument is the value the
caller's variable holds before the call; the result is the returned flag, the value of the
caller's variable after the call, and the window after the call. -/
def pollCallback (w : Window κ η) (callback : κ) : Bool × κ × Window κ η :=
  match w.m_Callback with
  | [] => (false, callback, w)
  | front :: rest => (true, front, { w with m_Callback := rest })

/-- `void Window::addChildCallback(Callback& callback)`. -/
def addChildCallback (w : Window κ η) (callback : κ) (env : Env κ η) :
    Window κ η × Env κ η :=
  if w.m_GlobalCallbackFunctions.isEmpty then
    ({ w with m_Callback := w.m_Callback ++ [callback] }, env)
  else
    (w, w.m_GlobalCallbackFunctions.foldl (fun e it => e.log (Call.handler it callback)) env)

/-- Modelled from the spec: registration of a global handler. The member function that fills
`m_GlobalCallbackFunctions` is declared outside `Window.cpp`; the spec describes the list as
the "ordered sequence of application-registered callback sinks", served "in registration
order", so registering appends the handler at the end and touches nothing else. -/
def registerHandler (w : Window κ η) (h : η) : Window κ η :=
  { w with m_GlobalCallbackFunctions := w.m_GlobalCallbackFunctions ++ [h] }

/-- One client call on the callback interface of a window. -/
inductive Op (κ : Type) where
  | addChildCallback (callback : κ)
  | pollCallback
  deriving DecidableEq, Repr

/-- Whether the operation is a call of `addChildCallback`. -/
def Op.isAdd : Op κ → Bool
  | .addChildCallback _ => true
  | .pollCallback => false

/-- Whether the operation is a call of `pollCallback`. -/
def Op.isPoll : Op κ → Bool
  | .addChildCallback _ => false
  | .pollCallback => true

/-- A client of the callback interface: the window, its environment, the client variable
that is passed to every `pollCallback`, and what the polls issued so far returned (the flag
and the content of the variable after the call), oldest first. -/
structure Client (κ η : Type) where
  w : Window κ η
  env : Env κ η
  callback : κ
  polled : List (Bool × κ)
  deriving DecidableEq, Repr

/-- The client issues one call. -/
def Client.step (s : Client κ η) : Op κ → Client κ η
  | .addChildCallback c =>
    let r := addChildCallback s.w c s.env
    { s with w := r.1, env := r.2 }
  | .pollCallback =>
    let r := pollCallback s.w s.callback
    { s with w := r.2.2, callback := r.2.1, polled := s.polled ++ [(r.1, r.2.1)] }

/-- The client issues an interleaving of `addChildCallback` and `pollCallback` calls, in
order. -/
def runOps (ops : List (Op κ)) (s : Client κ η) : Client κ η :=
  ops.foldl Client.step s

/-- No `pollCallback` of the interleaving is issued while the callback queue is empty. -/
def noPollOnEmpty : List (Op κ) → Client κ η → Bool
  | [], _ => true
  | .addChildCallback c :: ops, s => noPollOnEmpty ops (s.step (.addChildCallback c))
  | .pollCallback :: ops, s =>
    !s.w.m_Callback.isEmpty && noPollOnEmpty ops (s.step .pollCallback)

/-- The callbacks passed to `addChildCallback` in an interleaving, in call order. -/
def added : List (Op κ) → List κ
  | [] => []
  | .addChildCallback c :: ops => c :: added ops
  | .pollCallback :: ops => added ops

/-- Registration of several handlers, one after another. -/
def registerHandlers (w : Window κ η) (hs : List η) : Window κ η :=
  hs.foldl registerHandler w

/-- The client queues the callbacks `cs`, then the handlers `hs` are registered. -/
def queueThenRegister (s : Client κ η) (cs : List κ) (hs : List η) : Client κ η :=
  let s1 := runOps (cs.map Op.addChildCallback) s
  { s1 with w := registerHandlers s1.w hs }

/-! ## Event correction -/

/-- The exponent of the binade of a binary32 value around `q`: the largest `e` with
`2 ^ e ≤ |q|`, and `-126`, the exponent of the subnormal numbers, when that is smaller. -/
def binade32 (q : ℚ) : Int :=
  max (Int.log 2 |q|) (-126)

/-- The distance between neighbouring binary32 values around `q`: a binary32 significand has
24 bits. -/
def ulp32 (q : ℚ) : ℚ :=
  (2 : ℚ) ^ (binade32 q - 23)

/-- The integer nearest to `t`; of two nearest integers the even one. -/
def roundHalfEven (t : ℚ) : Int :=
  if t - ⌊t⌋ < 1 / 2 then ⌊t⌋
  else if 1 / 2 < t - ⌊t⌋ then ⌊t⌋ + 1
  else if ⌊t⌋ % 2 = 0 then ⌊t⌋
  else ⌊t⌋ + 1

/-- The binary32 value nearest to `q`, ties to even: the default rounding of IEEE 754.
Overflow to infinity is not modelled. -/
def round32 (q : ℚ) : ℚ :=
  (roundHalfEven (q / ulp32 q) : ℚ) * ulp32 q

/-- The sum `a + b` of two `float` values, as the `float` the addition returns. -/
def fadd32 (a b : ℚ) : ℚ :=
  round32 (a + b)

/-- The values `v` for which `static_cast<int>(v)` is defined: the truncated value fits in a
32-bit `int`. -/
def inIntRange (v : ℚ) : Prop :=
  -(2 : ℚ) ^ 31 - 1 < v ∧ v < (2 : ℚ) ^ 31

/-- The conversion `static_cast<int>(v)` of a floating-point value: the fractional part is
discarded, that is, the value is truncated toward zero. The conversion is undefined in C++
for a value outside `inIntRange`; what this function returns there has no meaning. -/
def static_cast_int (v : ℚ) : Int :=
  if 0 ≤ v then ⌊v⌋ else ⌈v⌉

/-- `void Window::handleEvent(sf::Event event)`. The first argument is
`m_Window->mapPixelToCoords(·, m_Window->getView())`, the coordinate mapping of the surface
under its current view; the values it returns are `float`s. What the event manager does with
the event it receives is not part of `Window.cpp`; the call is logged. -/
def handleEvent (mapPixelToCoords : Int → Int → ℚ × ℚ) (w : Window κ η) (event : Event)
    (env : Env κ η) : Window κ η × Env κ η :=
  match event with
  | .MouseMoved x y =>
    let mouseCoords := mapPixelToCoords x y
    let env1 := env.log (Call.mapPixelToCoords x y)
    (w, env1.log (Call.emHandleEvent
      (.MouseMoved (static_cast_int (fadd32 mouseCoords.1 (1 / 2)))
        (static_cast_int (fadd32 mouseCoords.2 (1 / 2))))))
  | .MouseButtonPressed button x y =>
    let mouseCoords := mapPixelToCoords x y
    let env1 := env.log (Call.mapPixelToCoords x y)
    (w, env1.log (Call.emHandleEvent
      (.MouseButtonPressed button (static_cast_int (fadd32 mouseCoords.1 (1 / 2)))
        (static_cast_int (fadd32 mouseCoords.2 (1 / 2))))))
  | .MouseButtonReleased button x y =>
    let mouseCoords := mapPixelToCoords x y
    let env1 := env.log (Call.mapPixelToCoords x y)
    (w, env1.log (Call.emHandleEvent
      (.MouseButtonReleased button (static_cast_int (fadd32 mouseCoords.1 (1 / 2)))
        (static_cast_int (fadd32 mouseCoords.2 (1 / 2))))))
  | .Other type payload => (w, env.log (Call.emHandleEvent (.Other type payload)))

/-- The identity coordinate mapper: the view maps every pixel to the scene point with the
same coordinates. A pixel coordinate of magnitude up to `2 ^ 24` is a `float`. -/
def identityMapper (x y : Int) : ℚ × ℚ := ((x : ℚ), (y : ℚ))

/-- The pointer coordinates carried by an event, if it carries any. -/
def Event.coords : Event → Option (Int × Int)
  | .MouseMoved x y => some (x, y)
  | .MouseButtonPressed _ x y => some (x, y)
  | .MouseButtonReleased _ x y => some (x, y)
  | .Other _ _ => none

/-- The event with its pointer coordinates replaced; an event without pointer coordinates is
returned as it is. -/
def Event.withCoords : Event → Int → Int → Event
  | .MouseMoved _ _, x, y => .MouseMoved x y
  | .MouseButtonPressed button _ _, x, y => .MouseButtonPressed button x y
  | .MouseButtonReleased button _ _, x, y => .MouseButtonReleased button x y
  | .Other type payload, _, _ => .Other type payload

/-- `glEnable(GL_SCISSOR_TEST)`. -/
def glEnable_SCISSOR_TEST (env : Env κ η) : Env κ η :=
  { env with gl := { env.gl with scissorTest := true } }.log Call.glEnableScissor

/-- `glDisable(GL_SCISSOR_TEST)`. -/
def glDisable_SCISSOR_TEST (env : Env κ η) : Env κ η :=
  { env with gl := { env.gl with scissorTest := false } }.log Call.glDisableScissor

/-- The conversion of an `unsigned int` to `GLsizei`, a signed 32-bit integer: values from
`2 ^ 31` on wrap to negative numbers. -/
def toGLsizei (n : Nat) : Int :=
  if n % 2 ^ 32 < 2 ^ 31 then ((n % 2 ^ 32 : Nat) : Int)
  else ((n % 2 ^ 32 : Nat) : Int) - 2 ^ 32

/-- `glScissor(x, y, width, height)`. OpenGL answers a negative width or height with
`GL_INVALID_VALUE` and ignores the call; otherwise it stores the box. -/
def glScissor (env : Env κ η) (x y width height : Int) : Env κ η :=
  if width < 0 ∨ height < 0 then env.log (Call.glScissor x y width height)
  else
    { env with gl := { env.gl with scissorBox := (x, y, width.toNat, height.toNat) } }.log
      (Call.glScissor x y width height)

/-- `void Window::updateTime(const sf::Time& elapsedTime)`. -/
def updateTime (w : Window κ η) (elapsedTime : Time) (env : Env κ η) :
    Window κ η × Env κ η :=
  (w, env.log (Call.emUpdateTime elapsedTime))

/-- `void Window::drawGUI()`. The first argument is what `drawObjectGroup` does to the scissor
state (the widgets may enable or disable the test and set any box); the second is the time
`m_Clock.restart()` returns. -/
def drawGUI (drawObjectGroup : GLState → GLState) (elapsed : Time) (w : Window κ η)
    (env : Env κ η) : Window κ η × Env κ η :=
  -- updateTime(m_Clock.restart());
  let s := updateTime w elapsed (env.log Call.clockRestart)
  let w1 := s.1
  let env1 := s.2
  -- GLboolean clippingEnabled = glIsEnabled(GL_SCISSOR_TEST); GLint scissor[4];
  let clippingEnabled := env1.gl.scissorTest
  -- scissor is filled by glGetIntegerv only when clipping is enabled; it is not read otherwise
  let scissor : Int × Int × Int × Int :=
    if clippingEnabled then
      (env1.gl.scissorBox.1, env1.gl.scissorBox.2.1, (env1.gl.scissorBox.2.2.1 : Int),
        (env1.gl.scissorBox.2.2.2 : Int))
    else (0, 0, 0, 0)
  -- glScissor(0, 0, m_Window->getSize().x, m_Window->getSize().y): unsigned int to GLsizei
  let env2 :=
    if clippingEnabled then env1
    else glScissor (glEnable_SCISSOR_TEST env1) 0 0 (toGLsizei env1.surfaceSize.1)
      (toGLsizei env1.surfaceSize.2)
  -- drawObjectGroup(m_Window, sf::RenderStates::Default);
  let env3 := { env2 with gl := drawObjectGroup env2.gl }.log (Call.drawObjectGroup env2.gl)
  let env4 :=
    if clippingEnabled then glScissor env3 scissor.1 scissor.2.1 scissor.2.2.1 scissor.2.2.2
    else glDisable_SCISSOR_TEST env3
  (w1, env4)

/-! ## Construction and destruction -/

/-- The expression `new sf::RenderWindow(args)`: returns an object that did not exist
before. -/
def newRenderWindow (args : SurfaceArgs) (env : Env κ η) : SurfaceId × Env κ η :=
  (env.nextSurface,
    { env with nextSurface := env.nextSurface + 1 }.log
      (Call.newRenderWindow env.nextSurface args))

/-- `Window::Window()`. The queue and the list of global callback functions are
default-constructed, hence empty. -/
def Window.Window_default (env : Env κ η) : Window κ η × Env κ η :=
  let r := newRenderWindow SurfaceArgs.none env
  ({ m_Window := r.1, m_GroupFocused := true, m_OwningWindow := true,
     m_Callback := [], m_GlobalCallbackFunctions := [] }, r.2)

/-- `Window::Window(sf::RenderWindow& window)`. -/
def Window.Window_window (window : SurfaceId) (env : Env κ η) : Window κ η × Env κ η :=
  ({ m_Window := window, m_GroupFocused := true, m_OwningWindow := false,
     m_Callback := [], m_GlobalCallbackFunctions := [] }, env)

/-- `Window::Window(sf::VideoMode mode, const std::string& title, sf::Uint32 style,
const sf::ContextSettings& settings)`. -/
def Window.Window_mode (width height bitsPerPixel : Nat) (title : String) (style : Nat)
    (settings : Nat) (env : Env κ η) : Window κ η × Env κ η :=
  let r := newRenderWindow (SurfaceArgs.mode width height bitsPerPixel title style settings) env
  ({ m_Window := r.1, m_GroupFocused := true, m_OwningWindow := true,
     m_Callback := [], m_GlobalCallbackFunctions := [] }, r.2)

/-- `Window::Window(sf::WindowHandle handle, const sf::ContextSettings& settings)`. -/
def Window.Window_handle (handle : Nat) (settings : Nat) (env : Env κ η) :
    Window κ η × Env κ η :=
  let r := newRenderWindow (SurfaceArgs.handle handle settings) env
  ({ m_Window := r.1, m_GroupFocused := true, m_OwningWindow := true,
     m_Callback := [], m_GlobalCallbackFunctions := [] }, r.2)

/-- `Window::~Window()`. -/
def Window.destructor (w : Window κ η) (env : Env κ η) : Env κ η :=
  if w.m_OwningWindow then env.log (Call.deleteRenderWindow w.m_Window) else env

/-! ## Sequences of events and the corrected form of an event -/

/-- Truncation toward zero as the spec words it: the integer part of the magnitude of `v`,
with the sign of `v`. -/
def truncTowardZero (v : ℚ) : Int :=
  if 0 ≤ v then ⌊|v|⌋ else -⌊|v|⌋

/-- The corrected form of an event under a coordinate mapper, as the spec words it: a pointer
event at pixel `(x, y)` keeps its type and button and takes the coordinates obtained from the
image `(mx, my)` of `(x, y)` with the "+0.5 offset before truncation", the offset being added
in `float` arithmetic; any other event is left as it is. -/
def corrected (mapPixelToCoords : Int → Int → ℚ × ℚ) (event : Event) : Event :=
  match event.coords with
  | some (x, y) =>
    event.withCoords (truncTowardZero (fadd32 (mapPixelToCoords x y).1 (1 / 2)))
      (truncTowardZero (fadd32 (mapPixelToCoords x y).2 (1 / 2)))
  | none => event

/-- The conversions to `int` that `handleEvent` performs on the event are defined: the two
sums of a pointer event lie within the range of `int`; an event of another type is not
converted. -/
def castsDefined (mapPixelToCoords : Int → Int → ℚ × ℚ) (event : Event) : Prop :=
  match event.coords with
  | some (x, y) =>
    inIntRange (fadd32 (mapPixelToCoords x y).1 (1 / 2)) ∧
      inIntRange (fadd32 (mapPixelToCoords x y).2 (1 / 2))
  | none => True

/-- The events the event manager has received according to the log, oldest first. -/
def received : List (Call κ η) → List Event
  | [] => []
  | .emHandleEvent event :: cs => event :: received cs
  | _ :: cs => received cs

/-- Successive calls `handleEvent(e1); ...; handleEvent(en)`. Each event comes with the
coordinate mapping of the view that is current when it is handled. -/
def handleEvents (es : List ((Int → Int → ℚ × ℚ) × Event)) (w : Window κ η)
    (env : Env κ η) : Window κ η × Env κ η :=
  es.foldl (fun s e => handleEvent e.1 s.1 e.2 s.2) (w, env)

/-- Whether a logged call is a call on the frame clock or of the event manager's
`updateTime`. -/
def Call.isTiming : Call κ η → Bool
  | .clockRestart => true
  | .emUpdateTime _ => true
  | _ => false

/-- Whether a logged call changes the clip state or draws the widget hierarchy. -/
def Call.isClipOrDraw : Call κ η → Bool
  | .glEnableScissor => true
  | .glDisableScissor => true
  | .glScissor _ _ _ _ => true
  | .drawObjectGroup _ => true
  | _ => false

/-! ## Double click on a label -/

/-- A callback emitted by a `Label`. `Label.hpp` documents one signal of its own,
`DoubleClicked`, whose callback carries the text of the label in the member `text`. -/
inductive LabelCallback where
  | DoubleClicked (text : String)
  deriving DecidableEq, Repr

/-- The members of `Label` that take part in double-click detection: the text `m_string`, the
flag `m_possibleDoubleClick` (`false` is the state the spec calls Idle, `true` the state it
calls PossibleDoubleClick), and the time that has passed since the first click. -/
structure Label where
  m_string : String
  m_possibleDoubleClick : Bool
  sinceFirstClick : Time
  deriving DecidableEq, Repr

/-- Modelled from the spec: `Label::leftMouseReleased` is declared in `Label.hpp` and defined
outside `src/`. A qualifying release in Idle starts the wait for a second click and emits
nothing; "a second qualifying release within the threshold while in PossibleDoubleClick emits
a DoubleClicked callback (with the widget's associated text ...) and returns to Idle". -/
def Label.leftMouseReleased (l : Label) : Label × List LabelCallback :=
  if l.m_possibleDoubleClick then
    ({ l with m_possibleDoubleClick := false }, [LabelCallback.DoubleClicked l.m_string])
  else
    ({ l with m_possibleDoubleClick := true, sinceFirstClick := 0 }, [])

/-- Modelled from the spec: the time update of a label (`Label::update` is declared in
`Label.hpp` and defined outside `src/`). `updateTime(elapsed)` "advances the internal clock
used for double-click expiry", and PossibleDoubleClick "expires back to Idle if the time since
the first click exceeds a fixed threshold". -/
def Label.updateTime (threshold : Time) (l : Label) (elapsed : Time) : Label :=
  if l.m_possibleDoubleClick && decide (threshold < l.sinceFirstClick + elapsed) then
    { l with m_possibleDoubleClick := false, sinceFirstClick := l.sinceFirstClick + elapsed }
  else
    { l with sinceFirstClick := l.sinceFirstClick + elapsed }

/-- A release, then the frames `frames` (the elapsed time of each is passed to the time
update), then a second release. The result is the label after the second release and the
callbacks emitted by the two releases, oldest first. -/
def Label.releaseTwice (threshold : Time) (l : Label) (frames : List Time) :
    Label × List LabelCallback :=
  let first := l.leftMouseReleased
  let waited := frames.foldl (Label.updateTime threshold) first.1
  let second := waited.leftMouseReleased
  (second.1, first.2 ++ second.2)

/-! ## Pass-through members -/

/-- The conversion `Vector2f(v)` of a `Vector2u`: each `unsigned int` component becomes the
nearest `float`. -/
def Value.toVector2f : Value → Value
  | .vector2u x y => .vector2f (round32 (x : ℚ)) (round32 (y : ℚ))
  | v => v

/-- A call of one of the members of `Window` that `Window.cpp` defines after
`addChildCallback`, with its arguments. Overloads are told apart by a suffix. -/
inductive PassThrough where
  | getDisplaySize
  | create_mode (mode title style settings : Value)
  | create_handle (handle settings : Value)
  | getSize
  | capture
  | close
  | isOpen
  | getSettings
  | pollEvent (event : Value)
  | waitEvent (event : Value)
  | getPosition
  | setPosition (position : Value)
  | setSize (size : Value)
  | setTitle (title : Value)
  | setIcon (width height pixels : Value)
  | setVisible (visible : Value)
  | setVerticalSyncEnabled (enabled : Value)
  | setMouseCursorVisible (visible : Value)
  | setKeyRepeatEnabled (enabled : Value)
  | setFramerateLimit (limit : Value)
  | setJoystickThreshold (threshold : Value)
  | setActive (active : Value)
  | display
  | getSystemHandle
  | clear (color : Value)
  | setView (view : Value)
  | getView
  | getDefaultView
  | getViewport (view : Value)
  | mapPixelToCoords (point : Value)
  | mapPixelToCoords_view (point view : Value)
  | mapCoordsToPixel (point : Value)
  | mapCoordsToPixel_view (point view : Value)
  | draw_drawable (drawable states : Value)
  | draw_vertices (vertices vertexCount type states : Value)
  | pushGLStates
  | popGLStates
  | resetGLStates
  deriving DecidableEq, Repr

/-- A member of return type `void` whose body is `m_Window->name(args);` or
`return m_Window->name(args);`. -/
def passVoid (name : String) (args : List Value) (w : Window κ η) (env : Env κ η) :
    Value × Window κ η × Env κ η :=
  (Value.void, w, env.log (Call.surface { name := name, args := args }))

/-- A member whose body is `return m_Window->name(args);` and that returns a value. The first
argument is the answer of the surface to a call in its current state. -/
def passValue (surface : SurfaceCall → Value) (name : String) (args : List Value)
    (w : Window κ η) (env : Env κ η) : Value × Window κ η × Env κ η :=
  (surface { name := name, args := args }, w,
    env.log (Call.surface { name := name, args := args }))

/-- The pass-through members of `Window`, in the order of `Window.cpp`. The first argument is
the answer of the surface to a call in its current state. -/
def PassThrough.run (surface : SurfaceCall → Value) (op : PassThrough) (w : Window κ η)
    (env : Env κ η) : Value × Window κ η × Env κ η :=
  match op with
  | .getDisplaySize =>
    -- return Vector2f(m_Window->getSize());
    ((surface { name := "getSize", args := [] }).toVector2f, w,
      env.log (Call.surface { name := "getSize", args := [] }))
  | .create_mode mode title style settings =>
    passVoid "create" [mode, title, style, settings] w env
  | .create_handle handle settings => passVoid "create" [handle, settings] w env
  | .getSize => passValue surface "getSize" [] w env
  | .capture => passValue surface "capture" [] w env
  | .close => passVoid "close" [] w env
  | .isOpen => passValue surface "isOpen" [] w env
  | .getSettings => passValue surface "getSettings" [] w env
  | .pollEvent event => passValue surface "pollEvent" [event] w env
  | .waitEvent event => passValue surface "waitEvent" [event] w env
  | .getPosition => passValue surface "getPosition" [] w env
  | .setPosition position => passVoid "setPosition" [position] w env
  | .setSize size => passVoid "setSize" [size] w env
  | .setTitle title => passVoid "setTitle" [title] w env
  | .setIcon width height pixels => passVoid "setIcon" [width, height, pixels] w env
  | .setVisible visible => passVoid "setVisible" [visible] w env
  | .setVerticalSyncEnabled enabled => passVoid "setVerticalSyncEnabled" [enabled] w env
  | .setMouseCursorVisible visible => passVoid "setMouseCursorVisible" [visible] w env
  | .setKeyRepeatEnabled enabled => passVoid "setKeyRepeatEnabled" [enabled] w env
  | .setFramerateLimit limit => passVoid "setFramerateLimit" [limit] w env
  | .setJoystickThreshold threshold => passVoid "setJoystickThreshold" [threshold] w env
  | .setActive active => passValue surface "setActive" [active] w env
  | .display => passVoid "display" [] w env
  | .getSystemHandle => passValue surface "getSystemHandle" [] w env
  | .clear color => passVoid "clear" [color] w env
  | .setView view => passVoid "setView" [view] w env
  | .getView => passValue surface "getView" [] w env
  | .getDefaultView => passValue surface "getDefaultView" [] w env
  | .getViewport view => passValue surface "getViewport" [view] w env
  | .mapPixelToCoords point => passValue surface "mapPixelToCoords" [point] w env
  | .mapPixelToCoords_view point view =>
    passValue surface "mapPixelToCoords" [point, view] w env
  | .mapCoordsToPixel point => passValue surface "mapCoordsToPixel" [point] w env
  | .mapCoordsToPixel_view point view =>
    passValue surface "mapCoordsToPixel" [point, view] w env
  | .draw_drawable drawable states => passVoid "draw" [drawable, states] w env
  | .draw_vertices vertices vertexCount type states =>
    passVoid "draw" [vertices, vertexCount, type, states] w env
  | .pushGLStates => passVoid "pushGLStates" [] w env
  | .popGLStates => passVoid "popGLStates" [] w env
  | .resetGLStates => passVoid "resetGLStates" [] w env

/-- The name of the member of `Window` that is called. -/
def PassThrough.name : PassThrough → String
  | .getDisplaySize => "getDisplaySize"
  | .create_mode _ _ _ _ => "create"
  | .create_handle _ _ => "create"
  | .getSize => "getSize"
  | .capture => "capture"
  | .close => "close"
  | .isOpen => "isOpen"
  | .getSettings => "getSettings"
  | .pollEvent _ => "pollEvent"
  | .waitEvent _ => "waitEvent"
  | .getPosition => "getPosition"
  | .setPosition _ => "setPosition"
  | .setSize _ => "setSize"
  | .setTitle _ => "setTitle"
  | .setIcon _ _ _ => "setIcon"
  | .setVisible _ => "setVisible"
  | .setVerticalSyncEnabled _ => "setVerticalSyncEnabled"
  | .setMouseCursorVisible _ => "setMouseCursorVisible"
  | .setKeyRepeatEnabled _ => "setKeyRepeatEnabled"
  | .setFramerateLimit _ => "setFramerateLimit"
  | .setJoystickThreshold _ => "setJoystickThreshold"
  | .setActive _ => "setActive"
  | .display => "display"
  | .getSystemHandle => "getSystemHandle"
  | .clear _ => "clear"
  | .setView _ => "setView"
  | .getView => "getView"
  | .getDefaultView => "getDefaultView"
  | .getViewport _ => "getViewport"
  | .mapPixelToCoords _ => "mapPixelToCoords"
  | .mapPixelToCoords_view _ _ => "mapPixelToCoords"
  | .mapCoordsToPixel _ => "mapCoordsToPixel"
  | .mapCoordsToPixel_view _ _ => "mapCoordsToPixel"
  | .draw_drawable _ _ => "draw"
  | .draw_vertices _ _ _ _ => "draw"
  | .pushGLStates => "pushGLStates"
  | .popGLStates => "popGLStates"
  | .resetGLStates => "resetGLStates"

/-- The arguments the member of `Window` is called with, in order. -/
def PassThrough.args : PassThrough → List Value
  | .create_mode mode title style settings => [mode, title, style, settings]
  | .create_handle handle settings => [handle, settings]
  | .pollEvent event => [event]
  | .waitEvent event => [event]
  | .setPosition position => [position]
  | .setSize size => [size]
  | .setTitle title => [title]
  | .setIcon width height pixels => [width, height, pixels]
  | .setVisible visible => [visible]
  | .setVerticalSyncEnabled enabled => [enabled]
  | .setMouseCursorVisible visible => [visible]
  | .setKeyRepeatEnabled enabled => [enabled]
  | .setFramerateLimit limit => [limit]
  | .setJoystickThreshold threshold => [threshold]
  | .setActive active => [active]
  | .clear color => [color]
  | .setView view => [view]
  | .getViewport view => [view]
  | .mapPixelToCoords point => [point]
  | .mapPixelToCoords_view point view => [point, view]
  | .mapCoordsToPixel point => [point]
  | .mapCoordsToPixel_view point view => [point, view]
  | .draw_drawable drawable states => [drawable, states]
  | .draw_vertices vertices vertexCount type states => [vertices, vertexCount, type, states]
  | _ => []

/-- Whether the member of `Window` is declared with the return type `void`. -/
def PassThrough.isVoid : PassThrough → Bool
  | .create_mode _ _ _ _ => true
  | .create_handle _ _ => true
  | .close => true
  | .setPosition _ => true
  | .setSize _ => true
  | .setTitle _ => true
  | .setIcon _ _ _ => true
  | .setVisible _ => true
  | .setVerticalSyncEnabled _ => true
  | .setMouseCursorVisible _ => true
  | .setKeyRepeatEnabled _ => true
  | .setFramerateLimit _ => true
  | .setJoystickThreshold _ => true
  | .display => true
  | .clear _ => true
  | .setView _ => true
  | .draw_drawable _ _ => true
  | .draw_vertices _ _ _ _ => true
  | .pushGLStates => true
  | .popGLStates => true
  | .resetGLStates => true
  | _ => false

/-- The surface operation a pass-through member is expected to call: the operation of the same
name with the same arguments; `getDisplaySize`, for which the surface has no operation of
that name, asks for the surface size with `getSize`. -/
def PassThrough.expectedCall (op : PassThrough) : SurfaceCall :=
  { name := if op = PassThrough.getDisplaySize then "getSize" else op.name, args := op.args }

/-- The surface size `(x, y)` converted to floats, as the spec words the result of
`getDisplaySize`: the pair of the binary32 values nearest to `x` and to `y`. -/
def sizeAsFloats (x y : Nat) : Value :=
  Value.vector2f (round32 (x : ℚ)) (round32 (y : ℚ))

/-- The value a pass-through member is expected to return, given the answer of the surface to
the expected call: nothing for a `void` member, the surface size converted to floats for
`getDisplaySize`, and the answer itself otherwise. -/
def PassThrough.expectedResult (op : PassThrough) (answer : Value) : Value :=
  if op.isVoid then Value.void
  else if op = PassThrough.getDisplaySize then
    match answer with
    | Value.vector2u x y => sizeAsFloats x y
    | other => other
  else answer

/-! ## Calls on a window, in any order -/

/-- A call of one of the member functions defined in `Window.cpp`, the constructors and the
destructor apart, with its arguments and with what the collaborators answer during it. -/
inductive WindowOp (κ η : Type) where
  | handleEvent (mapPixelToCoords : Int → Int → ℚ × ℚ) (event : Event)
  | drawGUI (drawObjectGroup : GLState → GLState) (elapsed : Time)
  | pollCallback (callback : κ)
  | updateTime (elapsedTime : Time)
  | addChildCallback (callback : κ)
  | passThrough (surface : SurfaceCall → Value) (op : PassThrough)

/-- The window and the environment after the call. -/
def WindowOp.apply : WindowOp κ η → Window κ η × Env κ η → Window κ η × Env κ η
  | .handleEvent mapPixelToCoords event, s => tgui.handleEvent mapPixelToCoords s.1 event s.2
  | .drawGUI drawObjectGroup elapsed, s => tgui.drawGUI drawObjectGroup elapsed s.1 s.2
  | .pollCallback callback, s => ((tgui.pollCallback s.1 callback).2.2, s.2)
  | .updateTime elapsedTime, s => tgui.updateTime s.1 elapsedTime s.2
  | .addChildCallback callback, s => tgui.addChildCallback s.1 callback s.2
  | .passThrough surface op, s => (op.run surface s.1 s.2).2

/-- The window and the environment after a sequence of calls. -/
def applyOps (ops : List (WindowOp κ η)) (s : Window κ η × Env κ η) : Window κ η × Env κ η :=
  ops.foldl (fun s op => op.apply s) s

/-! ## Concrete inputs -/

/-- An environment with nothing logged, the scissor test off and a 800 by 600 surface. -/
def env0 : Env Nat Nat :=
  { gl := { scissorTest := false, scissorBox := (0, 0, 0, 0) }, surfaceSize := (800, 600),
    nextSurface := 0, trace := [] }

/-- A window with an empty queue and no global callback function. -/
def w0 : Window Nat Nat :=
  { m_Window := 0, m_GroupFocused := true, m_OwningWindow := true, m_Callback := [],
    m_GlobalCallbackFunctions := [] }

/-- The environment `env0` with the scissor test on and the scissor box `(1, 2, 3, 4)`. -/
def envClip : Env Nat Nat :=
  { env0 with gl := { scissorTest := true, scissorBox := (1, 2, 3, 4) } }

/-- A widget hierarchy whose drawing leaves the scissor test switched off. -/
def drawDisabling (gl : GLState) : GLState :=
  { gl with scissorTest := false }

/-- A widget hierarchy whose drawing leaves the scissor box `(5, 6, 7, 8)` behind. -/
def drawShrinking (gl : GLState) : GLState :=
  { gl with scissorBox := (5, 6, 7, 8) }

/-- A coordinate mapper that sends every pixel to the scene point `(10.4f, 10.6f)`, the
`float`s nearest to 10.4 and 10.6. -/
def constMapper (_x _y : Int) : ℚ × ℚ := (5452595 / 524288, 5557453 / 524288)

/-- A coordinate mapper that sends every pixel to the scene point both of whose coordinates
are `0.49999997f`, the largest `float` below one half: `16777215 / 2 ^ 25`. -/
def nearHalfMapper (_x _y : Int) : ℚ × ℚ := (16777215 / 33554432, 16777215 / 33554432)

/-- The environment `env0` with the scissor box `(1, 2, 3, 4)`, the scissor test off, and a
surface whose width is the largest `unsigned int`. -/
def envWide : Env Nat Nat :=
  { env0 with
    gl := { scissorTest := false, scissorBox := (1, 2, 3, 4) }
    surfaceSize := (4294967295, 600) }

/-- A client of `w0` that has not polled yet; its variable holds `0`. -/
def client0 : Client Nat Nat :=
  { w := w0, env := env0, callback := 0, polled := [] }

/-- A label in the Idle state with the text `"Name"`. -/
def label0 : Label :=
  { m_string := "Name", m_possibleDoubleClick := false, sinceFirstClick := 0 }

/-! ## Basic facts about the two queue operations -/

theorem addChildCallback_nil (w : Window κ η) (c : κ) (env : Env κ η)
    (hh : w.m_GlobalCallbackFunctions = []) :
    addChildCallback w c env = ({ w with m_Callback := w.m_Callback ++ [c] }, env) := by
  simp [addChildCallback, hh]

theorem foldl_log_trace (hs : List η) (c : κ) (env : Env κ η) :
    hs.foldl (fun e it => e.log (Call.handler it c)) env
      = { env with trace := env.trace ++ hs.map (fun it => Call.handler it c) } := by
  induction hs generalizing env with
  | nil => simp
  | cons h hs ih =>
    rw [List.foldl_cons, ih]
    simp [Env.log]

theorem addChildCallback_cons (w : Window κ η) (c : κ) (env : Env κ η) (h : η) (hs : List η)
    (hh : w.m_GlobalCallbackFunctions = h :: hs) :
    addChildCallback w c env
      = (w, { env with trace := env.trace ++ (h :: hs).map (fun it => Call.handler it c) }) := by
  simp only [addChildCallback, hh, List.isEmpty_cons, Bool.false_eq_true, if_false]
  rw [foldl_log_trace]

theorem pollCallback_nil (w : Window κ η) (cb : κ) (hq : w.m_Callback = []) :
    pollCallback w cb = (false, cb, w) := by
  simp [pollCallback, hq]

theorem pollCallback_cons (w : Window κ η) (cb a : κ) (q : List κ) (hq : w.m_Callback = a :: q) :
    pollCallback w cb = (true, a, { w with m_Callback := q }) := by
  simp [pollCallback, hq]

theorem runOps_nil (s : Client κ η) : runOps [] s = s := rfl

theorem runOps_cons (op : Op κ) (ops : List (Op κ)) (s : Client κ η) :
    runOps (op :: ops) s = runOps ops (s.step op) := rfl

theorem runOps_append (ops₁ ops₂ : List (Op κ)) (s : Client κ η) :
    runOps (ops₁ ++ ops₂) s = runOps ops₂ (runOps ops₁ s) := by
  simp [runOps, List.foldl_append]

/-- With no global callback function, a run of adds appends the callbacks to the queue in
call order and changes nothing else. -/
theorem runOps_adds_nil (cs : List κ) (s : Client κ η)
    (hh : s.w.m_GlobalCallbackFunctions = []) :
    runOps (cs.map Op.addChildCallback) s
      = { s with w := { s.w with m_Callback := s.w.m_Callback ++ cs } } := by
  induction cs generalizing s with
  | nil => simp [runOps_nil]
  | cons c cs ih =>
    rw [List.map_cons, runOps_cons]
    have hstep : s.step (Op.addChildCallback c)
        = { s with w := { s.w with m_Callback := s.w.m_Callback ++ [c] } } := by
      simp [Client.step, addChildCallback_nil _ _ _ hh]
    rw [hstep, ih _ (by simpa using hh)]
    simp

/-- A run of `n` polls: the first polls return the queued callbacks front to back, the polls
after the queue has run dry return `false` and leave the client variable alone. -/
theorem runOps_polls (n : Nat) (s : Client κ η) :
    runOps (List.replicate n Op.pollCallback) s
      = { s with
          w := { s.w with m_Callback := s.w.m_Callback.drop n }
          callback := ((s.w.m_Callback.take n).getLast?).getD s.callback
          polled := s.polled ++ (s.w.m_Callback.take n).map (fun c => (true, c))
            ++ List.replicate (n - s.w.m_Callback.length)
                (false, ((s.w.m_Callback.take n).getLast?).getD s.callback) } := by
  induction n generalizing s with
  | zero => simp [runOps_nil]
  | succ n ih =>
    rw [List.replicate_succ, runOps_cons]
    cases hq : s.w.m_Callback with
    | nil =>
      have hstep : s.step Op.pollCallback
          = { s with polled := s.polled ++ [(false, s.callback)] } := by
        simp [Client.step, pollCallback_nil _ _ hq]
      rw [hstep, ih]
      simp [hq, List.replicate_succ]
    | cons a q =>
      have hstep : s.step Op.pollCallback
          = { s with w := { s.w with m_Callback := q }, callback := a,
                     polled := s.polled ++ [(true, a)] } := by
        simp [Client.step, pollCallback_cons _ _ a q hq]
      rw [hstep, ih]
      cases q with
      | nil => simp
      | cons b q =>
        cases n with
        | zero => simp
        | succ n => simp [List.getLast?_cons (a := b)]

/-- With at least one global callback function, every add of an interleaving is turned into
handler calls, and the polls see the queue as it was before the interleaving. -/
theorem runOps_handlers (ops : List (Op κ)) (s : Client κ η) (h : η) (hs : List η)
    (hh : s.w.m_GlobalCallbackFunctions = h :: hs) :
    runOps ops s
      = { s with
          w := { s.w with m_Callback := s.w.m_Callback.drop (ops.countP Op.isPoll) }
          env := { s.env with
            trace := s.env.trace ++ (added ops).flatMap
              (fun c => (h :: hs).map (fun it => Call.handler it c)) }
          callback := ((s.w.m_Callback.take (ops.countP Op.isPoll)).getLast?).getD s.callback
          polled := s.polled
            ++ (s.w.m_Callback.take (ops.countP Op.isPoll)).map (fun c => (true, c))
            ++ List.replicate (ops.countP Op.isPoll - s.w.m_Callback.length)
                (false,
                  ((s.w.m_Callback.take (ops.countP Op.isPoll)).getLast?).getD s.callback) } := by
  induction ops generalizing s with
  | nil => simp [runOps_nil, added]
  | cons op ops ih =>
    rw [runOps_cons]
    cases op with
    | addChildCallback c =>
      have hstep : s.step (Op.addChildCallback c)
          = { s with env := { s.env with
                trace := s.env.trace ++ (h :: hs).map (fun it => Call.handler it c) } } := by
        simp only [Client.step, addChildCallback_cons _ _ _ h hs hh]
      rw [hstep, ih _ (by simpa using hh)]
      simp [added, Op.isPoll]
    | pollCallback =>
      cases hq : s.w.m_Callback with
      | nil =>
        have hstep : s.step Op.pollCallback
            = { s with polled := s.polled ++ [(false, s.callback)] } := by
          simp [Client.step, pollCallback_nil _ _ hq]
        rw [hstep, ih _ (by simpa using hh)]
        simp [hq, added, Op.isPoll, List.replicate_succ]
      | cons a q =>
        have hstep : s.step Op.pollCallback
            = { s with w := { s.w with m_Callback := q }, callback := a,
                       polled := s.polled ++ [(true, a)] } := by
          simp [Client.step, pollCallback_cons _ _ a q hq]
        rw [hstep, ih _ (by simpa using hh)]
        cases q with
        | nil => simp [added, Op.isPoll]
        | cons b q =>
          cases hM : ops.countP Op.isPoll with
          | zero => simp [added, Op.isPoll, hM]
          | succ n => simp [added, Op.isPoll, hM, List.getLast?_cons (a := b)]

theorem step_handlers (s : Client κ η) (op : Op κ) :
    (s.step op).w.m_GlobalCallbackFunctions = s.w.m_GlobalCallbackFunctions := by
  cases op with
  | addChildCallback c =>
    simp only [Client.step, addChildCallback]
    split <;> rfl
  | pollCallback =>
    simp only [Client.step, pollCallback]
    split <;> rfl

/-- With no global callback function and no poll on an empty queue, every add lengthens the
queue by one and every poll shortens it by one. -/
theorem runOps_length (ops : List (Op κ)) (s : Client κ η)
    (hh : s.w.m_GlobalCallbackFunctions = []) (hp : noPollOnEmpty ops s = true) :
    (runOps ops s).w.m_Callback.length + ops.countP Op.isPoll
      = s.w.m_Callback.length + ops.countP Op.isAdd := by
  induction ops generalizing s with
  | nil => simp [runOps_nil]
  | cons op ops ih =>
    rw [runOps_cons]
    have hh1 : (s.step op).w.m_GlobalCallbackFunctions = [] := by
      rw [step_handlers, hh]
    cases op with
    | addChildCallback c =>
      have hlen : (s.step (Op.addChildCallback c)).w.m_Callback.length
          = s.w.m_Callback.length + 1 := by
        simp [Client.step, addChildCallback_nil _ _ _ hh]
      have := ih _ hh1 (by simpa [noPollOnEmpty] using hp)
      simp only [List.countP_cons, Op.isPoll, Op.isAdd] at this ⊢
      simp at this ⊢
      omega
    | pollCallback =>
      simp only [noPollOnEmpty, Bool.and_eq_true, Bool.not_eq_true', List.isEmpty_eq_false] at hp
      obtain ⟨hne, hp⟩ := hp
      obtain ⟨a, q, hq⟩ := List.exists_cons_of_ne_nil hne
      have hlen : (s.step Op.pollCallback).w.m_Callback.length + 1
          = s.w.m_Callback.length := by
        simp [Client.step, pollCallback_cons _ _ a q hq, hq]
      have := ih _ hh1 hp
      simp only [List.countP_cons, Op.isPoll, Op.isAdd] at this ⊢
      simp at this ⊢
      omega

theorem registerHandlers_eq (w : Window κ η) (hs : List η) :
    registerHandlers w hs
      = { w with m_GlobalCallbackFunctions := w.m_GlobalCallbackFunctions ++ hs } := by
  induction hs generalizing w with
  | nil => simp [registerHandlers]
  | cons h hs ih =>
    have : registerHandlers w (h :: hs) = registerHandlers (registerHandler w h) hs := rfl
    rw [this, ih]
    simp [registerHandler]

theorem queueThenRegister_eq (s : Client κ η) (cs : List κ) (hs : List η)
    (hq : s.w.m_Callback = []) (hh : s.w.m_GlobalCallbackFunctions = []) :
    queueThenRegister s cs hs
      = { s with w := { s.w with m_Callback := cs, m_GlobalCallbackFunctions := hs } } := by
  simp [queueThenRegister, runOps_adds_nil _ _ hh, registerHandlers_eq, hq, hh]

/-! ## The callback queue: claims -/

/-- C1: on a window with an empty queue and no global callback function, after
`addChildCallback(c1) ... addChildCallback(cN)` the next `N` calls of `pollCallback` return
`true` and yield `c1, ..., cN` in this order, and the call after them returns `false` (leaving
the client variable as the last successful poll set it). -/
theorem pollCallback_fifo_after_adds (s : Client κ η) (cs : List κ)
    (hq : s.w.m_Callback = []) (hh : s.w.m_GlobalCallbackFunctions = []) :
    (runOps (cs.map Op.addChildCallback ++ List.replicate (cs.length + 1) Op.pollCallback)
        s).polled
      = s.polled ++ cs.map (fun c => (true, c)) ++ [(false, (cs.getLast?).getD s.callback)] := by
  have ht : cs.take (cs.length + 1) = cs := List.take_of_length_le (Nat.le_succ _)
  rw [runOps_append, runOps_adds_nil _ _ hh, runOps_polls]
  simp only [hq, List.nil_append, ht, List.length_nil]
  simp

theorem pollCallback_fifo_after_adds_witness :
    client0.w.m_Callback = [] ∧ client0.w.m_GlobalCallbackFunctions = [] ∧
    (runOps ([7, 8].map Op.addChildCallback ++ List.replicate 3 Op.pollCallback) client0).polled
      = [(true, 7), (true, 8), (false, 8)] :=
  ⟨rfl, rfl, pollCallback_fifo_after_adds client0 [7, 8] rfl rfl⟩

/-- C2: when the list of global callback functions is not empty, `addChildCallback(c)` leaves
the window, and with it the callback queue, unchanged and calls every handler once with `c`,
in list order: the calls appended to the log are exactly `h1(c), ..., hk(c)`. -/
theorem addChildCallback_handlers (w : Window κ η) (c : κ) (env : Env κ η)
    (hh : w.m_GlobalCallbackFunctions ≠ []) :
    (addChildCallback w c env).1 = w ∧
    (addChildCallback w c env).2
      = { env with
          trace := env.trace
            ++ w.m_GlobalCallbackFunctions.map (fun it => Call.handler it c) } := by
  obtain ⟨h, hs, hcons⟩ := List.exists_cons_of_ne_nil hh
  rw [addChildCallback_cons w c env h hs hcons, hcons]
  exact ⟨rfl, rfl⟩

theorem addChildCallback_handlers_witness :
    (registerHandlers w0 [4, 5]).m_GlobalCallbackFunctions ≠ [] ∧
    (addChildCallback (registerHandlers w0 [4, 5]) 9 env0).1 = registerHandlers w0 [4, 5] ∧
    (addChildCallback (registerHandlers w0 [4, 5]) 9 env0).2
      = { env0 with trace := [Call.handler 4 9, Call.handler 5 9] } :=
  ⟨by decide, addChildCallback_handlers (registerHandlers w0 [4, 5]) 9 env0 (by decide)⟩

/-- C3: when `K` callbacks are queued while no handler is registered and handlers are
registered afterwards, neither the queueing nor the registration calls a handler; in every
later interleaving of adds and polls the polls return exactly the `K` queued callbacks in
their order and then `false`, and every callback added after the registration is passed to
each handler once, in registration order, and never reaches the queue. -/
theorem register_after_queueing (s : Client κ η) (cs : List κ) (h : η) (hs : List η)
    (ops : List (Op κ)) (hq : s.w.m_Callback = []) (hh : s.w.m_GlobalCallbackFunctions = []) :
    (queueThenRegister s cs (h :: hs)).env.trace = s.env.trace ∧
    (runOps ops (queueThenRegister s cs (h :: hs))).env.trace
      = s.env.trace
        ++ (added ops).flatMap (fun c => (h :: hs).map (fun it => Call.handler it c)) ∧
    (runOps ops (queueThenRegister s cs (h :: hs))).polled
      = s.polled ++ (cs.take (ops.countP Op.isPoll)).map (fun c => (true, c))
        ++ List.replicate (ops.countP Op.isPoll - cs.length)
            (false, ((cs.take (ops.countP Op.isPoll)).getLast?).getD s.callback) ∧
    (runOps ops (queueThenRegister s cs (h :: hs))).w.m_Callback
      = cs.drop (ops.countP Op.isPoll) := by
  rw [queueThenRegister_eq s cs (h :: hs) hq hh]
  rw [runOps_handlers ops _ h hs rfl]
  exact ⟨rfl, rfl, rfl, rfl⟩

theorem register_after_queueing_witness :
    client0.w.m_Callback = [] ∧ client0.w.m_GlobalCallbackFunctions = [] ∧
    (queueThenRegister client0 [7, 8] [4, 5]).env.trace = [] ∧
    (runOps [.addChildCallback 9, .pollCallback, .pollCallback, .addChildCallback 10,
        .pollCallback] (queueThenRegister client0 [7, 8] [4, 5])).env.trace
      = [Call.handler 4 9, Call.handler 5 9, Call.handler 4 10, Call.handler 5 10] ∧
    (runOps [.addChildCallback 9, .pollCallback, .pollCallback, .addChildCallback 10,
        .pollCallback] (queueThenRegister client0 [7, 8] [4, 5])).polled
      = [(true, 7), (true, 8), (false, 8)] ∧
    (runOps [.addChildCallback 9, .pollCallback, .pollCallback, .addChildCallback 10,
        .pollCallback] (queueThenRegister client0 [7, 8] [4, 5])).w.m_Callback = [] :=
  ⟨rfl, rfl, register_after_queueing client0 [7, 8] 4 [5]
    [.addChildCallback 9, .pollCallback, .pollCallback, .addChildCallback 10, .pollCallback]
    rfl rfl⟩

/-- C7: when the list of global callback functions is empty, `addChildCallback(c)` turns the
queue `q` into `q ++ [c]`, changes no other member, and calls no handler (the environment,
log included, is unchanged). -/
theorem addChildCallback_appends (w : Window κ η) (q : List κ) (c : κ) (env : Env κ η)
    (hq : w.m_Callback = q) (hh : w.m_GlobalCallbackFunctions = []) :
    (addChildCallback w c env).1 = { w with m_Callback := q ++ [c] } ∧
    (addChildCallback w c env).2 = env := by
  rw [addChildCallback_nil w c env hh, hq]
  exact ⟨rfl, rfl⟩

theorem addChildCallback_appends_witness :
    ({ w0 with m_Callback := [7, 8] } : Window Nat Nat).m_Callback = [7, 8] ∧
    ({ w0 with m_Callback := [7, 8] } : Window Nat Nat).m_GlobalCallbackFunctions = [] ∧
    (addChildCallback { w0 with m_Callback := [7, 8] } 9 env0).1
      = { w0 with m_Callback := [7, 8] ++ [9] } ∧
    (addChildCallback { w0 with m_Callback := [7, 8] } 9 env0).2 = env0 :=
  ⟨rfl, rfl, addChildCallback_appends { w0 with m_Callback := [7, 8] } [7, 8] 9 env0 rfl rfl⟩

/-- C8: on a non-empty queue `h :: t`, `pollCallback` returns `true`, writes the head `h` to
its output parameter and leaves the queue equal to `t`; no other member changes. -/
theorem pollCallback_head (w : Window κ η) (h : κ) (t : List κ) (callback : κ)
    (hq : w.m_Callback = h :: t) :
    pollCallback w callback = (true, h, { w with m_Callback := t }) :=
  pollCallback_cons w callback h t hq

theorem pollCallback_head_witness :
    ({ w0 with m_Callback := [7, 8, 9] } : Window Nat Nat).m_Callback = 7 :: [8, 9] ∧
    pollCallback { w0 with m_Callback := [7, 8, 9] } 0
      = (true, 7, { w0 with m_Callback := [8, 9] }) :=
  ⟨rfl, pollCallback_head { w0 with m_Callback := [7, 8, 9] } 7 [8, 9] 0 rfl⟩

/-- C9: `pollCallback` is a total function with a plain result; on an empty queue it returns
`false`, leaves the window (so the queue stays empty) and the output parameter as they were;
and it returns `false` exactly when the queue was empty. -/
theorem pollCallback_total (w : Window κ η) (callback : κ) :
    pollCallback { w with m_Callback := [] } callback
      = (false, callback, { w with m_Callback := [] }) ∧
    ((pollCallback w callback).1 = false ↔ w.m_Callback = []) := by
  refine ⟨rfl, ?_⟩
  cases hq : w.m_Callback with
  | nil => simp [pollCallback_nil w callback hq]
  | cons a q => simp [pollCallback_cons w callback a q hq]

/-- C10: with no global callback function and an initially empty queue, after an interleaving
of `N` adds and `M` polls none of which is issued on an empty queue, `M ≤ N` and the queue
holds exactly `N - M` callbacks. -/
theorem queue_length_after_interleaving (ops : List (Op κ)) (s : Client κ η)
    (hq : s.w.m_Callback = []) (hh : s.w.m_GlobalCallbackFunctions = [])
    (hp : noPollOnEmpty ops s = true) :
    ops.countP Op.isPoll ≤ ops.countP Op.isAdd ∧
    (runOps ops s).w.m_Callback.length = ops.countP Op.isAdd - ops.countP Op.isPoll := by
  have key := runOps_length ops s hh hp
  rw [hq] at key
  simp only [List.length_nil, Nat.zero_add] at key
  omega

theorem queue_length_after_interleaving_witness :
    client0.w.m_Callback = [] ∧ client0.w.m_GlobalCallbackFunctions = [] ∧
    noPollOnEmpty [.addChildCallback 7, .addChildCallback 8, .pollCallback,
      .addChildCallback 9] client0 = true ∧
    (1 ≤ 3 ∧
      (runOps [.addChildCallback 7, .addChildCallback 8, .pollCallback, .addChildCallback 9]
        client0).w.m_Callback.length = 3 - 1) :=
  ⟨rfl, rfl, by decide,
    queue_length_after_interleaving
      [.addChildCallback 7, .addChildCallback 8, .pollCallback, .addChildCallback 9]
      client0 rfl rfl (by decide)⟩

/-! ## Facts about binary32 rounding -/

/-- The binade of a value between two neighbouring powers of two. -/
theorem binade32_eq (q : ℚ) (e : Int) (he : -126 ≤ e) (h1 : (2 : ℚ) ^ e ≤ |q|)
    (h2 : |q| < (2 : ℚ) ^ (e + 1)) : binade32 q = e := by
  have hpos : 0 < |q| := lt_of_lt_of_le (by positivity) h1
  have hlog : Int.log 2 |q| = e := by
    apply le_antisymm
    · have := (Int.lt_zpow_iff_log_lt (b := 2) (by norm_num) hpos (x := e + 1)).mp
        (by exact_mod_cast h2)
      omega
    · exact (Int.zpow_le_iff_le_log (b := 2) (by norm_num) hpos).mp (by exact_mod_cast h1)
  rw [binade32, hlog]
  exact max_eq_left he

/-- The binade of a value below a power of two lies below the exponent. -/
theorem binade32_lt (q : ℚ) (e : Int) (he : 0 < e) (h : |q| < (2 : ℚ) ^ e) :
    binade32 q < e := by
  rw [binade32]
  apply max_lt _ (by omega)
  rcases eq_or_lt_of_le (abs_nonneg q) with h0 | hpos
  · rw [← h0, Int.log_zero_right]
    omega
  · exact (Int.lt_zpow_iff_log_lt (b := 2) (by norm_num) hpos).mp (by exact_mod_cast h)

theorem roundHalfEven_intCast (n : Int) : roundHalfEven (n : ℚ) = n := by
  simp [roundHalfEven]

/-- A value halfway between two integers goes to the even one. -/
theorem roundHalfEven_tie (f : Int) :
    roundHalfEven ((f : ℚ) + 1 / 2) = if f % 2 = 0 then f else f + 1 := by
  have hfloor : ⌊(f : ℚ) + 1 / 2⌋ = f := by
    rw [Int.floor_eq_iff]
    constructor <;> linarith
  simp only [roundHalfEven, hfloor]
  norm_num

/-- Rounding with the binade known. -/
theorem round32_of_binade (q : ℚ) (e : Int) (he : -126 ≤ e) (h1 : (2 : ℚ) ^ e ≤ |q|)
    (h2 : |q| < (2 : ℚ) ^ (e + 1)) :
    round32 q = (roundHalfEven (q / (2 : ℚ) ^ (e - 23)) : ℚ) * (2 : ℚ) ^ (e - 23) := by
  rw [round32, ulp32, binade32_eq q e he h1 h2]

/-- A multiple of `2 ^ (-m)` of magnitude below `2 ^ (24 - m)` has at most 24 significant bits
and is a binary32 value: rounding leaves it as it is. -/
theorem round32_dyadic (k : Int) (m : Nat) (hm : m ≤ 23)
    (hq : |(k : ℚ) / (2 : ℚ) ^ m| < (2 : ℚ) ^ (24 - m)) :
    round32 ((k : ℚ) / (2 : ℚ) ^ m) = (k : ℚ) / (2 : ℚ) ^ m := by
  have hlt : binade32 ((k : ℚ) / (2 : ℚ) ^ m) < ((24 - m : Nat) : Int) :=
    binade32_lt _ _ (by omega) (by rw [zpow_natCast]; exact hq)
  obtain ⟨j, hj⟩ : ∃ j : Nat, binade32 ((k : ℚ) / (2 : ℚ) ^ m) - 23 = -((m + j : Nat) : Int) :=
    ⟨(23 - m - binade32 ((k : ℚ) / (2 : ℚ) ^ m)).toNat, by omega⟩
  have hu : ulp32 ((k : ℚ) / (2 : ℚ) ^ m) = ((2 : ℚ) ^ (m + j))⁻¹ := by
    rw [ulp32, hj, zpow_neg, zpow_natCast]
  have hdiv : (k : ℚ) / (2 : ℚ) ^ m / ((2 : ℚ) ^ (m + j))⁻¹ = ((k * 2 ^ j : Int) : ℚ) := by
    have h2 : ((2 : ℚ) ^ m) ≠ 0 := by positivity
    push_cast
    field_simp
    ring
  rw [round32, hu, hdiv, roundHalfEven_intCast]
  have h2 : ((2 : ℚ) ^ m) ≠ 0 := by positivity
  have h3 : ((2 : ℚ) ^ j) ≠ 0 := by positivity
  push_cast
  field_simp
  ring

/-- An integer of magnitude below `2 ^ 24` is a binary32 value. -/
theorem round32_intCast (k : Int) (hk : |(k : ℚ)| < (2 : ℚ) ^ 24) : round32 (k : ℚ) = k := by
  have := round32_dyadic k 0 (by omega) (by simpa using hk)
  simpa using this

/-- An integer plus one half is a binary32 value when its magnitude is below `2 ^ 23`. -/
theorem round32_add_half (x : Int) (hx : |(x : ℚ) + 1 / 2| < (2 : ℚ) ^ 23) :
    round32 ((x : ℚ) + 1 / 2) = (x : ℚ) + 1 / 2 := by
  have heq : (x : ℚ) + 1 / 2 = ((2 * x + 1 : Int) : ℚ) / (2 : ℚ) ^ 1 := by
    push_cast
    ring
  rw [heq]
  apply round32_dyadic (2 * x + 1) 1 (by omega)
  rw [← heq]
  simpa using hx


/-! ## Event correction: claims -/

theorem static_cast_int_of_nonneg {v : ℚ} (h : 0 ≤ v) : static_cast_int v = ⌊v⌋ := by
  simp [static_cast_int, h]

theorem static_cast_int_of_neg {v : ℚ} (h : v < 0) : static_cast_int v = ⌈v⌉ := by
  simp [static_cast_int, not_le.mpr h]

/-- The sum `0.49999997f + 0.5f` is halfway between two `float`s and rounds up to `1.0f`. -/
theorem fadd32_nearHalf : fadd32 (16777215 / 33554432) (1 / 2) = 1 := by
  have hq : (16777215 / 33554432 + 1 / 2 : ℚ) = 33554431 / 33554432 := by norm_num
  rw [fadd32, hq, round32_of_binade _ (-1) (by norm_num)
    (by rw [abs_of_pos (by norm_num)]; norm_num) (by rw [abs_of_pos (by norm_num)]; norm_num)]
  have ht : (33554431 / 33554432 : ℚ) / (2 : ℚ) ^ ((-1 : Int) - 23)
      = ((16777215 : Int) : ℚ) + 1 / 2 := by norm_num
  rw [ht, roundHalfEven_tie]
  norm_num

/-- The value `0.49999997f`, that is `16777215 / 2 ^ 25`, is a `float`. -/
theorem round32_nearHalf :
    round32 (nearHalfMapper 0 0).1 = (nearHalfMapper 0 0).1 := by
  show round32 (16777215 / 33554432) = 16777215 / 33554432
  rw [round32_of_binade _ (-2) (by norm_num)
    (by rw [abs_of_pos (by norm_num)]; norm_num) (by rw [abs_of_pos (by norm_num)]; norm_num)]
  have ht : (16777215 / 33554432 : ℚ) / (2 : ℚ) ^ ((-2 : Int) - 23)
      = ((16777215 : Int) : ℚ) := by norm_num
  rw [ht, roundHalfEven_intCast]
  norm_num

/-- The sum `8388609.0f + 0.5f` is halfway between two `float`s and rounds up to
`8388610.0f`. -/
theorem fadd32_8388609 : fadd32 8388609 (1 / 2) = 8388610 := by
  have hq : (8388609 + 1 / 2 : ℚ) = 16777219 / 2 := by norm_num
  rw [fadd32, hq, round32_of_binade _ 23 (by norm_num)
    (by rw [abs_of_pos (by norm_num)]; norm_num) (by rw [abs_of_pos (by norm_num)]; norm_num)]
  have ht : (16777219 / 2 : ℚ) / (2 : ℚ) ^ ((23 : Int) - 23)
      = ((8388609 : Int) : ℚ) + 1 / 2 := by norm_num
  rw [ht, roundHalfEven_tie]
  norm_num

/-- The sum `-8388610.0f + 0.5f` is halfway between two `float`s and rounds back to
`-8388610.0f`. -/
theorem fadd32_neg_8388610 : fadd32 (-8388610) (1 / 2) = -8388610 := by
  have hq : (-8388610 + 1 / 2 : ℚ) = -(16777219 / 2) := by norm_num
  rw [fadd32, hq, round32_of_binade _ 23 (by norm_num)
    (by rw [abs_neg, abs_of_pos (by norm_num)]; norm_num)
    (by rw [abs_neg, abs_of_pos (by norm_num)]; norm_num)]
  have ht : (-(16777219 / 2) : ℚ) / (2 : ℚ) ^ ((23 : Int) - 23)
      = ((-8388610 : Int) : ℚ) + 1 / 2 := by norm_num
  rw [ht, roundHalfEven_tie]
  norm_num

/-- The sum `10.4f + 0.5f` is exact. -/
theorem fadd32_10_4 : fadd32 (5452595 / 524288) (1 / 2) = 5452595 / 524288 + 1 / 2 := by
  have hq : (5452595 / 524288 + 1 / 2 : ℚ) = ((11429478 : Int) : ℚ) / (2 : ℚ) ^ 20 := by
    norm_num
  rw [fadd32, hq]
  exact round32_dyadic 11429478 20 (by norm_num) (by rw [abs_of_pos (by norm_num)]; norm_num)

/-- The sum `10.6f + 0.5f` is exact. -/
theorem fadd32_10_6 : fadd32 (5557453 / 524288) (1 / 2) = 5557453 / 524288 + 1 / 2 := by
  have hq : (5557453 / 524288 + 1 / 2 : ℚ) = ((11639194 : Int) : ℚ) / (2 : ℚ) ^ 20 := by
    norm_num
  rw [fadd32, hq]
  exact round32_dyadic 11639194 20 (by norm_num) (by rw [abs_of_pos (by norm_num)]; norm_num)

/-- For a pixel coordinate from `0` to `2 ^ 23 - 1` the sum with `0.5f` is exact and the
conversion gives the coordinate back. -/
theorem static_cast_int_fadd32_nonneg (x : Int) (hx : 0 ≤ x) (hb : x < 2 ^ 23) :
    static_cast_int (fadd32 (x : ℚ) (1 / 2)) = x := by
  have h0 : (0 : ℚ) ≤ (x : ℚ) := by exact_mod_cast hx
  have h1 : (x : ℚ) ≤ 2 ^ 23 - 1 := by
    have : x ≤ 2 ^ 23 - 1 := by omega
    exact_mod_cast this
  rw [fadd32, round32_add_half x (by rw [abs_of_nonneg (by linarith)]; linarith),
    static_cast_int_of_nonneg (by linarith), Int.floor_eq_iff]
  constructor <;> linarith

/-- For a pixel coordinate `-(n + 1)` with `n < 2 ^ 23` the sum with `0.5f` is exact and the
conversion gives `-n`. -/
theorem static_cast_int_fadd32_neg (n : Nat) (hb : n < 2 ^ 23) :
    static_cast_int (fadd32 ((-((n : Int) + 1) : Int) : ℚ) (1 / 2)) = -(n : Int) := by
  have h0 : (0 : ℚ) ≤ (n : ℚ) := Nat.cast_nonneg n
  have h1 : (n : ℚ) ≤ 2 ^ 23 - 1 := by
    have : (n : ℚ) + 1 ≤ 2 ^ 23 := by exact_mod_cast hb
    linarith
  have hneg : ((-((n : Int) + 1) : Int) : ℚ) + 1 / 2 < 0 := by push_cast; linarith
  rw [fadd32, round32_add_half _ (by rw [abs_of_neg hneg]; push_cast; linarith),
    static_cast_int_of_neg hneg, Int.ceil_eq_iff]
  push_cast
  constructor <;> linarith

theorem handleEvent_trace (mapPixelToCoords : Int → Int → ℚ × ℚ) (w : Window κ η)
    (env : Env κ η) (event : Event) (x y : Int) (hc : event.coords = some (x, y)) :
    handleEvent mapPixelToCoords w event env
      = (w, { env with
              trace := env.trace ++ [Call.mapPixelToCoords x y,
                Call.emHandleEvent (event.withCoords
                  (static_cast_int (fadd32 (mapPixelToCoords x y).1 (1 / 2)))
                  (static_cast_int (fadd32 (mapPixelToCoords x y).2 (1 / 2))))] }) := by
  cases event with
  | MouseMoved a b =>
    simp only [Event.coords, Option.some.injEq, Prod.mk.injEq] at hc
    obtain ⟨rfl, rfl⟩ := hc
    simp [handleEvent, Env.log, Event.withCoords]
  | MouseButtonPressed button a b =>
    simp only [Event.coords, Option.some.injEq, Prod.mk.injEq] at hc
    obtain ⟨rfl, rfl⟩ := hc
    simp [handleEvent, Env.log, Event.withCoords]
  | MouseButtonReleased button a b =>
    simp only [Event.coords, Option.some.injEq, Prod.mk.injEq] at hc
    obtain ⟨rfl, rfl⟩ := hc
    simp [handleEvent, Env.log, Event.withCoords]
  | Other type payload => simp [Event.coords] at hc

theorem toGLsizei_of_lt (n : Nat) (h : n < 2 ^ 31) : toGLsizei n = (n : Int) := by
  have hmod : n % 2 ^ 32 = n := Nat.mod_eq_of_lt (by omega)
  simp only [toGLsizei, hmod]
  rw [if_pos h]

/-- A box read back from OpenGL is accepted when it is set again. -/
theorem glScissor_natCast (env : Env κ η) (x y : Int) (width height : Nat) :
    glScissor env x y (width : Int) (height : Int)
      = { env with
          gl := { env.gl with scissorBox := (x, y, width, height) }
          trace := env.trace ++ [Call.glScissor x y (width : Int) (height : Int)] } := by
  have hw : ¬ ((width : Int) < 0 ∨ (height : Int) < 0) := by omega
  simp [glScissor, hw, Env.log]

/-- The scissor state after `drawGUI`, in terms of the state before it and of what the widget
hierarchy does to the state it is handed. -/
theorem drawGUI_gl (drawObjectGroup : GLState → GLState) (elapsed : Time) (w : Window κ η)
    (env : Env κ η) :
    (drawGUI drawObjectGroup elapsed w env).2.gl
      = if env.gl.scissorTest then
          { scissorTest := (drawObjectGroup env.gl).scissorTest,
            scissorBox := env.gl.scissorBox }
        else
          { scissorTest := false,
            scissorBox := (drawObjectGroup
              { scissorTest := true,
                scissorBox :=
                  if toGLsizei env.surfaceSize.1 < 0 ∨ toGLsizei env.surfaceSize.2 < 0 then
                    env.gl.scissorBox
                  else
                    (0, 0, (toGLsizei env.surfaceSize.1).toNat,
                      (toGLsizei env.surfaceSize.2).toNat) }).scissorBox } := by
  cases hb : env.gl.scissorTest
  · by_cases hr : toGLsizei env.surfaceSize.1 < 0 ∨ toGLsizei env.surfaceSize.2 < 0
    · simp [drawGUI, updateTime, Env.log, glScissor, glEnable_SCISSOR_TEST,
        glDisable_SCISSOR_TEST, hb, hr]
    · simp [drawGUI, updateTime, Env.log, glScissor, glEnable_SCISSOR_TEST,
        glDisable_SCISSOR_TEST, hb, hr]
  · simp [drawGUI, updateTime, Env.log, glScissor_natCast, hb]

/-- C5, as the code has it: whatever the widget hierarchy does to the scissor state, after
`drawGUI` the scissor test is off if it was off before the call (the box is then the one the
hierarchy left); if it was on with box `R` before the call, the box is `R` again after it and
the test is in the state in which `drawObjectGroup` left it (`drawGUI` resets the box and
does not switch the test back on). -/
theorem drawGUI_restores_clip (drawObjectGroup : GLState → GLState) (elapsed : Time)
    (w : Window κ η) (env : Env κ η) :
    (drawGUI drawObjectGroup elapsed w env).2.gl.scissorTest
      = (env.gl.scissorTest && (drawObjectGroup env.gl).scissorTest) ∧
    (drawGUI drawObjectGroup elapsed w env).2.gl.scissorBox
      = if env.gl.scissorTest then env.gl.scissorBox
        else (drawObjectGroup
          { scissorTest := true,
            scissorBox :=
              if toGLsizei env.surfaceSize.1 < 0 ∨ toGLsizei env.surfaceSize.2 < 0 then
                env.gl.scissorBox
              else
                (0, 0, (toGLsizei env.surfaceSize.1).toNat,
                  (toGLsizei env.surfaceSize.2).toNat) }).scissorBox := by
  rw [drawGUI_gl]
  cases hb : env.gl.scissorTest <;> simp

/-- C5, as the claim has it, fails when the hierarchy returns with the scissor test off: the
clip region `(1, 2, 3, 4)` is active before `drawGUI`, and after it the box is `(1, 2, 3, 4)`
but the scissor test is off, so no clip region is active. -/
theorem drawGUI_leaves_clip_off :
    envClip.gl = { scissorTest := true, scissorBox := (1, 2, 3, 4) } ∧
    (drawGUI drawDisabling 16000 w0 envClip).2.gl
      = { scissorTest := false, scissorBox := (1, 2, 3, 4) } := by
  decide

/-! ## Ownership of the render surface: claims -/

/-- C6: each of the three constructors that create the surface (`new sf::RenderWindow`) marks
the window as owning, and the destructor of that window frees the created surface, once; the
constructor that takes an existing `sf::RenderWindow` creates nothing and marks the window as
not owning, and the destructor of that window frees nothing. In general the destructor frees
`m_Window` exactly when `m_OwningWindow` is set. -/
theorem destructor_frees_iff_created (env : Env κ η) (window : SurfaceId)
    (width height bitsPerPixel style settings handle : Nat) (title : String)
    (w : Window κ η) :
    ((Window.Window_default env).1.m_OwningWindow = true ∧
      (Window.Window_default env).2.trace
        = env.trace ++ [Call.newRenderWindow (Window.Window_default env).1.m_Window
            SurfaceArgs.none] ∧
      ((Window.Window_default env).1.destructor (Window.Window_default env).2).trace
        = (Window.Window_default env).2.trace
          ++ [Call.deleteRenderWindow (Window.Window_default env).1.m_Window]) ∧
    ((Window.Window_mode width height bitsPerPixel title style settings env).1.m_OwningWindow
        = true ∧
      (Window.Window_mode width height bitsPerPixel title style settings env).2.trace
        = env.trace ++ [Call.newRenderWindow
            (Window.Window_mode width height bitsPerPixel title style settings env).1.m_Window
            (SurfaceArgs.mode width height bitsPerPixel title style settings)] ∧
      ((Window.Window_mode width height bitsPerPixel title style settings env).1.destructor
          (Window.Window_mode width height bitsPerPixel title style settings env).2).trace
        = (Window.Window_mode width height bitsPerPixel title style settings env).2.trace
          ++ [Call.deleteRenderWindow
            (Window.Window_mode width height bitsPerPixel title style settings
              env).1.m_Window]) ∧
    ((Window.Window_handle handle settings env).1.m_OwningWindow = true ∧
      (Window.Window_handle handle settings env).2.trace
        = env.trace ++ [Call.newRenderWindow (Window.Window_handle handle settings env).1.m_Window
            (SurfaceArgs.handle handle settings)] ∧
      ((Window.Window_handle handle settings env).1.destructor
          (Window.Window_handle handle settings env).2).trace
        = (Window.Window_handle handle settings env).2.trace
          ++ [Call.deleteRenderWindow (Window.Window_handle handle settings env).1.m_Window]) ∧
    ((Window.Window_window window env).1.m_OwningWindow = false ∧
      (Window.Window_window window env).1.m_Window = window ∧
      (Window.Window_window window env).2 = env ∧
      (Window.Window_window window env).1.destructor (Window.Window_window window env).2
        = env) ∧
    (w.destructor env).trace
      = env.trace ++ (if w.m_OwningWindow then [Call.deleteRenderWindow w.m_Window] else []) := by
  refine ⟨⟨rfl, rfl, rfl⟩, ⟨rfl, rfl, rfl⟩, ⟨rfl, rfl, rfl⟩, ⟨rfl, rfl, rfl, rfl⟩, ?_⟩
  cases hb : w.m_OwningWindow <;> simp [Window.destructor, hb, Env.log]

/-! ## Forwarding of events: claims -/

theorem static_cast_int_eq_trunc (v : ℚ) : static_cast_int v = truncTowardZero v := by
  by_cases h : 0 ≤ v
  · simp [static_cast_int, truncTowardZero, h, abs_of_nonneg h]
  · have hneg : v < 0 := not_le.mp h
    simp only [static_cast_int, truncTowardZero, h, if_false, abs_of_neg hneg, Int.floor_neg,
      neg_neg]

theorem received_append (a b : List (Call κ η)) :
    received (a ++ b) = received a ++ received b := by
  induction a with
  | nil => rfl
  | cons c a ih => cases c <;> simp [received, ih]

theorem corrected_of_coords (mapPixelToCoords : Int → Int → ℚ × ℚ) (event : Event)
    (x y : Int) (hc : event.coords = some (x, y)) :
    corrected mapPixelToCoords event
      = event.withCoords (static_cast_int (fadd32 (mapPixelToCoords x y).1 (1 / 2)))
          (static_cast_int (fadd32 (mapPixelToCoords x y).2 (1 / 2))) := by
  simp only [corrected, hc, static_cast_int_eq_trunc]

theorem handleEvent_of_coords_none (mapPixelToCoords : Int → Int → ℚ × ℚ) (w : Window κ η)
    (env : Env κ η) (event : Event) (hc : event.coords = none) :
    handleEvent mapPixelToCoords w event env = (w, env.log (Call.emHandleEvent event)) := by
  cases event with
  | Other type payload => rfl
  | MouseMoved a b => simp [Event.coords] at hc
  | MouseButtonPressed button a b => simp [Event.coords] at hc
  | MouseButtonReleased button a b => simp [Event.coords] at hc

/-- One call of `handleEvent` leaves the window alone and hands the event manager exactly one
event, the corrected form of its argument. -/
theorem handleEvent_received (mapPixelToCoords : Int → Int → ℚ × ℚ) (w : Window κ η)
    (env : Env κ η) (event : Event) :
    (handleEvent mapPixelToCoords w event env).1 = w ∧
    received (handleEvent mapPixelToCoords w event env).2.trace
      = received env.trace ++ [corrected mapPixelToCoords event] := by
  cases hc : event.coords with
  | none =>
    rw [handleEvent_of_coords_none mapPixelToCoords w env event hc]
    simp [Env.log, received_append, received, corrected, hc]
  | some p =>
    obtain ⟨x, y⟩ := p
    rw [handleEvent_trace mapPixelToCoords w env event x y hc,
      corrected_of_coords mapPixelToCoords event x y hc]
    simp [received_append, received]

/-- C11, as the code has it: for a pointer event of any of the three types at pixel `(x, y)`
and any coordinate mapper with image `(mx, my)` of `(x, y)`, `handleEvent` forwards to the
event manager an event of the same type (and the same mouse button) whose coordinates are
`(trunc (mx ⊕ 1/2), trunc (my ⊕ 1/2))`, where `⊕` is the addition of `float`, which rounds the
sum to the nearest binary32 value, and `trunc` truncates toward zero; the two sums are taken
to lie within the range of `int`, outside of which the conversion is undefined. -/
theorem handleEvent_forwards_truncated (mapPixelToCoords : Int → Int → ℚ × ℚ)
    (w : Window κ η) (env : Env κ η) (button : Nat) (x y : Int)
    (_hxr : inIntRange (fadd32 (mapPixelToCoords x y).1 (1 / 2)))
    (_hyr : inIntRange (fadd32 (mapPixelToCoords x y).2 (1 / 2))) :
    handleEvent mapPixelToCoords w (Event.MouseMoved x y) env
      = (w, { env with
              trace := env.trace ++ [Call.mapPixelToCoords x y,
                Call.emHandleEvent (Event.MouseMoved
                  (truncTowardZero (round32 ((mapPixelToCoords x y).1 + 1 / 2)))
                  (truncTowardZero (round32 ((mapPixelToCoords x y).2 + 1 / 2))))] }) ∧
    handleEvent mapPixelToCoords w (Event.MouseButtonPressed button x y) env
      = (w, { env with
              trace := env.trace ++ [Call.mapPixelToCoords x y,
                Call.emHandleEvent (Event.MouseButtonPressed button
                  (truncTowardZero (round32 ((mapPixelToCoords x y).1 + 1 / 2)))
                  (truncTowardZero (round32 ((mapPixelToCoords x y).2 + 1 / 2))))] }) ∧
    handleEvent mapPixelToCoords w (Event.MouseButtonReleased button x y) env
      = (w, { env with
              trace := env.trace ++ [Call.mapPixelToCoords x y,
                Call.emHandleEvent (Event.MouseButtonReleased button
                  (truncTowardZero (round32 ((mapPixelToCoords x y).1 + 1 / 2)))
                  (truncTowardZero (round32 ((mapPixelToCoords x y).2 + 1 / 2))))] }) := by
  refine ⟨?_, ?_, ?_⟩
  · rw [handleEvent_trace mapPixelToCoords w env (Event.MouseMoved x y) x y rfl]
    simp only [static_cast_int_eq_trunc, Event.withCoords, fadd32]
  · rw [handleEvent_trace mapPixelToCoords w env (Event.MouseButtonPressed button x y) x y rfl]
    simp only [static_cast_int_eq_trunc, Event.withCoords, fadd32]
  · rw [handleEvent_trace mapPixelToCoords w env (Event.MouseButtonReleased button x y) x y rfl]
    simp only [static_cast_int_eq_trunc, Event.withCoords, fadd32]

theorem inIntRange_constMapper :
    inIntRange (fadd32 (constMapper 3 4).1 (1 / 2)) ∧
    inIntRange (fadd32 (constMapper 3 4).2 (1 / 2)) := by
  have h1 : fadd32 (constMapper 3 4).1 (1 / 2) = 5452595 / 524288 + 1 / 2 := fadd32_10_4
  have h2 : fadd32 (constMapper 3 4).2 (1 / 2) = 5557453 / 524288 + 1 / 2 := fadd32_10_6
  rw [h1, h2]
  constructor <;> constructor <;> norm_num

theorem handleEvent_forwards_truncated_witness :
    inIntRange (fadd32 (constMapper 3 4).1 (1 / 2)) ∧
    inIntRange (fadd32 (constMapper 3 4).2 (1 / 2)) ∧
    handleEvent constMapper w0 (Event.MouseMoved 3 4) env0
      = (w0, { env0 with
               trace := env0.trace ++ [Call.mapPixelToCoords 3 4,
                 Call.emHandleEvent (Event.MouseMoved
                   (truncTowardZero (round32 ((constMapper 3 4).1 + 1 / 2)))
                   (truncTowardZero (round32 ((constMapper 3 4).2 + 1 / 2))))] }) ∧
    handleEvent constMapper w0 (Event.MouseButtonPressed 1 3 4) env0
      = (w0, { env0 with
               trace := env0.trace ++ [Call.mapPixelToCoords 3 4,
                 Call.emHandleEvent (Event.MouseButtonPressed 1
                   (truncTowardZero (round32 ((constMapper 3 4).1 + 1 / 2)))
                   (truncTowardZero (round32 ((constMapper 3 4).2 + 1 / 2))))] }) ∧
    handleEvent constMapper w0 (Event.MouseButtonReleased 1 3 4) env0
      = (w0, { env0 with
               trace := env0.trace ++ [Call.mapPixelToCoords 3 4,
                 Call.emHandleEvent (Event.MouseButtonReleased 1
                   (truncTowardZero (round32 ((constMapper 3 4).1 + 1 / 2)))
                   (truncTowardZero (round32 ((constMapper 3 4).2 + 1 / 2))))] }) :=
  ⟨inIntRange_constMapper.1, inIntRange_constMapper.2,
    handleEvent_forwards_truncated constMapper w0 env0 1 3 4 inIntRange_constMapper.1
      inIntRange_constMapper.2⟩

/-- C11, as the claim has it, fails where the `float` sum is not exact: for a mapper that
returns `0.49999997f` for both coordinates, `0.49999997f + 0.5f` rounds to `1.0f` and the
event is forwarded with the coordinates `(1, 1)`, while `trunc (mx + 1/2)` is `0`. -/
theorem handleEvent_rounds_sum_near_half :
    round32 (nearHalfMapper 0 0).1 = (nearHalfMapper 0 0).1 ∧
    (handleEvent nearHalfMapper w0 (Event.MouseMoved 0 0) env0).2.trace
      = [Call.mapPixelToCoords 0 0, Call.emHandleEvent (Event.MouseMoved 1 1)] ∧
    truncTowardZero ((nearHalfMapper 0 0).1 + 1 / 2) = 0 ∧
    truncTowardZero ((nearHalfMapper 0 0).2 + 1 / 2) = 0 ∧
    (handleEvent nearHalfMapper w0 (Event.MouseMoved 0 0) env0).2.trace
      ≠ [Call.mapPixelToCoords 0 0,
          Call.emHandleEvent (Event.MouseMoved
            (truncTowardZero ((nearHalfMapper 0 0).1 + 1 / 2))
            (truncTowardZero ((nearHalfMapper 0 0).2 + 1 / 2)))] := by
  have ht : truncTowardZero ((16777215 : ℚ) / 33554432 + 1 / 2) = 0 := by
    rw [← static_cast_int_eq_trunc, static_cast_int_of_nonneg (by norm_num),
      Int.floor_eq_iff]
    norm_num
  have hc : static_cast_int (fadd32 (16777215 / 33554432) (1 / 2)) = 1 := by
    rw [fadd32_nearHalf, static_cast_int_of_nonneg (by norm_num)]
    exact Int.floor_one
  have htrace : (handleEvent nearHalfMapper w0 (Event.MouseMoved 0 0) env0).2.trace
      = [Call.mapPixelToCoords 0 0, Call.emHandleEvent (Event.MouseMoved 1 1)] := by
    rw [handleEvent_trace nearHalfMapper w0 env0 (Event.MouseMoved 0 0) 0 0 rfl]
    simp only [nearHalfMapper, hc, Event.withCoords, env0, List.nil_append]
  refine ⟨round32_nearHalf, htrace, ?_, ?_, ?_⟩
  · simpa [nearHalfMapper] using ht
  · simpa [nearHalfMapper] using ht
  · rw [htrace]
    simp only [nearHalfMapper, ht]
    decide

/-- C12: for an event whose type is none of the three pointer types, `handleEvent` forwards
the event as it is, and the only call it makes is the one to the event manager: the coordinate
mapper is not asked, and the outcome does not depend on it. -/
theorem handleEvent_other_untouched (mapPixelToCoords mapPixelToCoords₂ : Int → Int → ℚ × ℚ)
    (w : Window κ η) (env : Env κ η) (event : Event) (hc : event.coords = none) :
    handleEvent mapPixelToCoords w event env
      = (w, { env with trace := env.trace ++ [Call.emHandleEvent event] }) ∧
    handleEvent mapPixelToCoords w event env = handleEvent mapPixelToCoords₂ w event env := by
  rw [handleEvent_of_coords_none mapPixelToCoords w env event hc,
    handleEvent_of_coords_none mapPixelToCoords₂ w env event hc]
  exact ⟨rfl, rfl⟩

theorem handleEvent_other_untouched_witness :
    (Event.Other 5 [65, 0]).coords = none ∧
    handleEvent identityMapper w0 (Event.Other 5 [65, 0]) env0
      = (w0, { env0 with trace := env0.trace ++ [Call.emHandleEvent (Event.Other 5 [65, 0])] }) ∧
    handleEvent identityMapper w0 (Event.Other 5 [65, 0]) env0
      = handleEvent constMapper w0 (Event.Other 5 [65, 0]) env0 :=
  ⟨rfl, handleEvent_other_untouched identityMapper constMapper w0 env0 (Event.Other 5 [65, 0])
    rfl⟩

/-- C13: when the events `e1, ..., en` are passed to `handleEvent` one after another, each
with sums within the range of `int`, the window is left alone and the event manager receives
exactly `n` further events, the `i`-th of which is the corrected form of `ei`. -/
theorem handleEvents_in_order (es : List ((Int → Int → ℚ × ℚ) × Event)) (w : Window κ η)
    (env : Env κ η) (_hdef : ∀ e ∈ es, castsDefined e.1 e.2) :
    (handleEvents es w env).1 = w ∧
    received (handleEvents es w env).2.trace
      = received env.trace ++ es.map (fun e => corrected e.1 e.2) := by
  clear _hdef
  induction es generalizing w env with
  | nil => simp [handleEvents]
  | cons e es ih =>
    have hstep : handleEvents (e :: es) w env
        = handleEvents es (handleEvent e.1 w e.2 env).1 (handleEvent e.1 w e.2 env).2 := rfl
    obtain ⟨hw, hr⟩ := handleEvent_received e.1 w env e.2
    rw [hstep]
    obtain ⟨ihw, ihr⟩ := ih (handleEvent e.1 w e.2 env).1 (handleEvent e.1 w e.2 env).2
    rw [ihw, ihr, hw, hr]
    simp

theorem handleEvents_in_order_witness :
    (∀ e ∈ [(constMapper, Event.MouseMoved 3 4), (identityMapper, Event.Other 5 [65, 0]),
        (constMapper, Event.MouseButtonPressed 1 3 4)], castsDefined e.1 e.2) ∧
    (handleEvents [(constMapper, Event.MouseMoved 3 4), (identityMapper, Event.Other 5 [65, 0]),
        (constMapper, Event.MouseButtonPressed 1 3 4)] w0 env0).1 = w0 ∧
    received (handleEvents [(constMapper, Event.MouseMoved 3 4),
        (identityMapper, Event.Other 5 [65, 0]),
        (constMapper, Event.MouseButtonPressed 1 3 4)] w0 env0).2.trace
      = received env0.trace
        ++ [corrected constMapper (Event.MouseMoved 3 4),
            corrected identityMapper (Event.Other 5 [65, 0]),
            corrected constMapper (Event.MouseButtonPressed 1 3 4)] := by
  have hdef : ∀ e ∈ [(constMapper, Event.MouseMoved 3 4),
      (identityMapper, Event.Other 5 [65, 0]),
      (constMapper, Event.MouseButtonPressed 1 3 4)], castsDefined e.1 e.2 := by
    intro e he
    simp only [List.mem_cons, List.mem_singleton, List.not_mem_nil, or_false] at he
    rcases he with rfl | rfl | rfl
    · exact inIntRange_constMapper
    · exact True.intro
    · exact inIntRange_constMapper
  exact ⟨hdef, handleEvents_in_order _ w0 env0 hdef⟩

/-- C18, as the code has it: with the identity coordinate mapper a pointer event whose pixel
coordinates both lie from `0` to `2 ^ 23 - 1` is forwarded as it is, so it is its own
corrected form and correcting it again changes nothing; a negative coordinate is not kept:
the pointer event at pixel `(-1, -1)` is forwarded with the coordinates `(0, 0)`, and in
general the coordinate `-(n + 1)` with `n < 2 ^ 23` is forwarded as `-n`. -/
theorem handleEvent_identity_fixed_point (w : Window κ η) (env : Env κ η) (event : Event)
    (x y : Int) (n m : Nat) (hc : event.coords = some (x, y)) (hx : 0 ≤ x) (hy : 0 ≤ y)
    (hxb : x < 2 ^ 23) (hyb : y < 2 ^ 23) (hn : n < 2 ^ 23) (hm : m < 2 ^ 23) :
    handleEvent identityMapper w event env
      = (w, { env with
              trace := env.trace ++ [Call.mapPixelToCoords x y, Call.emHandleEvent event] }) ∧
    corrected identityMapper event = event ∧
    corrected identityMapper (corrected identityMapper event) = corrected identityMapper event ∧
    handleEvent identityMapper w (Event.MouseMoved (-1) (-1)) env
      = (w, { env with
              trace := env.trace ++ [Call.mapPixelToCoords (-1) (-1),
                Call.emHandleEvent (Event.MouseMoved 0 0)] }) ∧
    handleEvent identityMapper w (Event.MouseMoved (-((n : Int) + 1)) (-((m : Int) + 1))) env
      = (w, { env with
              trace := env.trace ++ [Call.mapPixelToCoords (-((n : Int) + 1)) (-((m : Int) + 1)),
                Call.emHandleEvent (Event.MouseMoved (-(n : Int)) (-(m : Int)))] }) := by
  have hfix : event.withCoords (static_cast_int (fadd32 (identityMapper x y).1 (1 / 2)))
      (static_cast_int (fadd32 (identityMapper x y).2 (1 / 2))) = event := by
    simp only [identityMapper, static_cast_int_fadd32_nonneg x hx hxb,
      static_cast_int_fadd32_nonneg y hy hyb]
    cases event with
    | Other type payload => simp [Event.coords] at hc
    | MouseMoved a b =>
      simp only [Event.coords, Option.some.injEq, Prod.mk.injEq] at hc
      obtain ⟨rfl, rfl⟩ := hc
      rfl
    | MouseButtonPressed button a b =>
      simp only [Event.coords, Option.some.injEq, Prod.mk.injEq] at hc
      obtain ⟨rfl, rfl⟩ := hc
      rfl
    | MouseButtonReleased button a b =>
      simp only [Event.coords, Option.some.injEq, Prod.mk.injEq] at hc
      obtain ⟨rfl, rfl⟩ := hc
      rfl
  have hcorr : corrected identityMapper event = event := by
    rw [corrected_of_coords identityMapper event x y hc, hfix]
  have hminus : static_cast_int (fadd32 ((-1 : Int) : ℚ) (1 / 2)) = 0 := by
    have h := static_cast_int_fadd32_neg 0 (by norm_num)
    simpa using h
  refine ⟨?_, hcorr, ?_, ?_, ?_⟩
  · rw [handleEvent_trace identityMapper w env event x y hc, hfix]
  · rw [hcorr, hcorr]
  · rw [handleEvent_trace identityMapper w env (Event.MouseMoved (-1) (-1)) (-1) (-1) rfl]
    simp only [identityMapper, hminus, Event.withCoords]
  · rw [handleEvent_trace identityMapper w env
      (Event.MouseMoved (-((n : Int) + 1)) (-((m : Int) + 1))) _ _ rfl]
    simp only [identityMapper, static_cast_int_fadd32_neg n hn,
      static_cast_int_fadd32_neg m hm, Event.withCoords]

theorem handleEvent_identity_fixed_point_witness :
    (Event.MouseButtonReleased 0 3 4).coords = some (3, 4) ∧ (0 : Int) ≤ 3 ∧ (0 : Int) ≤ 4 ∧
    (3 : Int) < 2 ^ 23 ∧ (4 : Int) < 2 ^ 23 ∧ (6 : Nat) < 2 ^ 23 ∧ (2 : Nat) < 2 ^ 23 ∧
    (handleEvent identityMapper w0 (Event.MouseButtonReleased 0 3 4) env0
      = (w0, { env0 with
               trace := env0.trace ++ [Call.mapPixelToCoords 3 4,
                 Call.emHandleEvent (Event.MouseButtonReleased 0 3 4)] }) ∧
    corrected identityMapper (Event.MouseButtonReleased 0 3 4)
      = Event.MouseButtonReleased 0 3 4 ∧
    corrected identityMapper (corrected identityMapper (Event.MouseButtonReleased 0 3 4))
      = corrected identityMapper (Event.MouseButtonReleased 0 3 4) ∧
    handleEvent identityMapper w0 (Event.MouseMoved (-1) (-1)) env0
      = (w0, { env0 with
               trace := env0.trace ++ [Call.mapPixelToCoords (-1) (-1),
                 Call.emHandleEvent (Event.MouseMoved 0 0)] }) ∧
    handleEvent identityMapper w0 (Event.MouseMoved (-(((6 : Nat) : Int) + 1))
        (-(((2 : Nat) : Int) + 1))) env0
      = (w0, { env0 with
               trace := env0.trace ++ [Call.mapPixelToCoords (-(((6 : Nat) : Int) + 1))
                   (-(((2 : Nat) : Int) + 1)),
                 Call.emHandleEvent
                   (Event.MouseMoved (-((6 : Nat) : Int)) (-((2 : Nat) : Int)))] })) :=
  ⟨rfl, by decide, by decide, by decide, by decide, by decide, by decide,
    handleEvent_identity_fixed_point w0 env0 (Event.MouseButtonReleased 0 3 4) 3 4 6 2 rfl
      (by decide) (by decide) (by decide) (by decide) (by decide) (by decide)⟩

/-- C18, as the claim has it, fails from `2 ^ 23` on, where `float` has no halves: with the
identity mapper the pointer event at pixel `(8388609, 8388609)`, a value `float` represents
exactly, is forwarded with the coordinates `(8388610, 8388610)`, because
`8388609.0f + 0.5f` rounds to `8388610.0f`; and the negative coordinate `-8388610` is
kept. -/
theorem handleEvent_identity_not_fixed_at_8388609 :
    round32 (identityMapper 8388609 8388609).1 = (8388609 : ℚ) ∧
    (handleEvent identityMapper w0 (Event.MouseMoved 8388609 8388609) env0).2.trace
      = [Call.mapPixelToCoords 8388609 8388609,
          Call.emHandleEvent (Event.MouseMoved 8388610 8388610)] ∧
    (handleEvent identityMapper w0 (Event.MouseMoved 8388609 8388609) env0).2.trace
      ≠ [Call.mapPixelToCoords 8388609 8388609,
          Call.emHandleEvent (Event.MouseMoved 8388609 8388609)] ∧
    (handleEvent identityMapper w0 (Event.MouseMoved (-8388610) (-8388610)) env0).2.trace
      = [Call.mapPixelToCoords (-8388610) (-8388610),
          Call.emHandleEvent (Event.MouseMoved (-8388610) (-8388610))] := by
  have hrep : round32 (identityMapper 8388609 8388609).1 = (8388609 : ℚ) := by
    have h := round32_intCast 8388609 (by rw [abs_of_pos (by norm_num)]; norm_num)
    simpa [identityMapper] using h
  have hup : static_cast_int (fadd32 ((8388609 : Int) : ℚ) (1 / 2)) = 8388610 := by
    have h : fadd32 ((8388609 : Int) : ℚ) (1 / 2) = 8388610 := by
      simpa using fadd32_8388609
    rw [h, static_cast_int_of_nonneg (by norm_num)]
    exact_mod_cast Int.floor_intCast (8388610 : Int)
  have hkeep : static_cast_int (fadd32 ((-8388610 : Int) : ℚ) (1 / 2)) = -8388610 := by
    have h : fadd32 ((-8388610 : Int) : ℚ) (1 / 2) = -8388610 := by
      simpa using fadd32_neg_8388610
    rw [h, static_cast_int_of_neg (by norm_num)]
    exact_mod_cast Int.ceil_intCast (-8388610 : Int)
  have htrace : (handleEvent identityMapper w0 (Event.MouseMoved 8388609 8388609) env0).2.trace
      = [Call.mapPixelToCoords 8388609 8388609,
          Call.emHandleEvent (Event.MouseMoved 8388610 8388610)] := by
    rw [handleEvent_trace identityMapper w0 env0 (Event.MouseMoved 8388609 8388609)
      8388609 8388609 rfl]
    simp only [identityMapper, hup, Event.withCoords, env0, List.nil_append]
  refine ⟨hrep, htrace, ?_, ?_⟩
  · rw [htrace]
    decide
  · rw [handleEvent_trace identityMapper w0 env0 (Event.MouseMoved (-8388610) (-8388610))
      (-8388610) (-8388610) rfl]
    simp only [identityMapper, hkeep, Event.withCoords, env0, List.nil_append]

/-! ## Order of the calls made by `drawGUI`: claims -/

/-- The calls `drawGUI` makes when clipping is enabled on entry. -/
theorem drawGUI_trace_enabled (drawObjectGroup : GLState → GLState) (elapsed : Time)
    (w : Window κ η) (env : Env κ η) (hb : env.gl.scissorTest = true) :
    (drawGUI drawObjectGroup elapsed w env).2.trace
      = env.trace ++ [Call.clockRestart, Call.emUpdateTime elapsed,
          Call.drawObjectGroup env.gl,
          Call.glScissor env.gl.scissorBox.1 env.gl.scissorBox.2.1
            (env.gl.scissorBox.2.2.1 : Int) (env.gl.scissorBox.2.2.2 : Int)] := by
  simp [drawGUI, updateTime, Env.log, glScissor_natCast, hb]

/-- The calls `drawGUI` makes when clipping is disabled on entry. The hierarchy is drawn with
the test on, and with the box covering the surface unless OpenGL has rejected the size. -/
theorem drawGUI_trace_disabled (drawObjectGroup : GLState → GLState) (elapsed : Time)
    (w : Window κ η) (env : Env κ η) (hb : env.gl.scissorTest = false) :
    (drawGUI drawObjectGroup elapsed w env).2.trace
      = env.trace ++ [Call.clockRestart, Call.emUpdateTime elapsed,
          Call.glEnableScissor,
          Call.glScissor 0 0 (toGLsizei env.surfaceSize.1) (toGLsizei env.surfaceSize.2),
          Call.drawObjectGroup
            { scissorTest := true,
              scissorBox :=
                if toGLsizei env.surfaceSize.1 < 0 ∨ toGLsizei env.surfaceSize.2 < 0 then
                  env.gl.scissorBox
                else
                  (0, 0, (toGLsizei env.surfaceSize.1).toNat,
                    (toGLsizei env.surfaceSize.2).toNat) },
          Call.glDisableScissor] := by
  by_cases hr : toGLsizei env.surfaceSize.1 < 0 ∨ toGLsizei env.surfaceSize.2 < 0
  · simp [drawGUI, updateTime, Env.log, glScissor, glEnable_SCISSOR_TEST,
      glDisable_SCISSOR_TEST, hb, hr]
  · simp [drawGUI, updateTime, Env.log, glScissor, glEnable_SCISSOR_TEST,
      glDisable_SCISSOR_TEST, hb, hr]

/-- C14: the calls one `drawGUI` adds to the log start with the restart of the frame clock,
followed at once by the event manager's `updateTime` with the time that restart returned;
every call after these two changes the clip state or draws the hierarchy, so there is no
second restart or time update, the hierarchy is drawn exactly once, and the time update
precedes the drawing and every change of the clip state. The window is left alone. -/
theorem drawGUI_updates_time_first (drawObjectGroup : GLState → GLState) (elapsed : Time)
    (w : Window κ η) (env : Env κ η) :
    (drawGUI drawObjectGroup elapsed w env).1 = w ∧
    (drawGUI drawObjectGroup elapsed w env).2.trace
      = env.trace ++ [Call.clockRestart, Call.emUpdateTime elapsed]
        ++ (drawGUI drawObjectGroup elapsed w env).2.trace.drop (env.trace.length + 2) ∧
    ((drawGUI drawObjectGroup elapsed w env).2.trace.drop (env.trace.length + 2)).all
      Call.isClipOrDraw = true ∧
    ((drawGUI drawObjectGroup elapsed w env).2.trace.drop (env.trace.length + 2)).all
      (fun c => !c.isTiming) = true ∧
    ((drawGUI drawObjectGroup elapsed w env).2.trace.drop (env.trace.length + 2)).countP
      (fun c => match c with
        | Call.drawObjectGroup _ => true
        | _ => false) = 1 := by
  refine ⟨rfl, ?_⟩
  cases hb : env.gl.scissorTest with
  | true =>
    rw [drawGUI_trace_enabled drawObjectGroup elapsed w env hb]
    have hd : ∀ (a b c d : Call κ η),
        (env.trace ++ [a, b, c, d]).drop (env.trace.length + 2) = [c, d] := by
      intro a b c d
      have : env.trace ++ [a, b, c, d] = (env.trace ++ [a, b]) ++ [c, d] := by simp
      rw [this, List.drop_left' (by simp)]
    rw [hd]
    simp [Call.isClipOrDraw, Call.isTiming]
  | false =>
    rw [drawGUI_trace_disabled drawObjectGroup elapsed w env hb]
    have hd : ∀ (a b c d e f : Call κ η),
        (env.trace ++ [a, b, c, d, e, f]).drop (env.trace.length + 2) = [c, d, e, f] := by
      intro a b c d e f
      have : env.trace ++ [a, b, c, d, e, f] = (env.trace ++ [a, b]) ++ [c, d, e, f] := by
        simp
      rw [this, List.drop_left' (by simp)]
    rw [hd]
    simp [Call.isClipOrDraw, Call.isTiming]

/-- C17, as the code has it: when `drawGUI` is called with the scissor test off and a surface
whose width `W` and height `H` are below `2 ^ 31`, it switches the test on and sets the box
to `(0, 0, W, H)`, and the hierarchy is drawn from that state; when it is called with the
scissor test on and the box `R`, whatever the size of the surface, it makes no call that
changes the clip state before the drawing, and the hierarchy is drawn from the state with the
test on and the box `R`. -/
theorem drawGUI_draws_from_clip (drawObjectGroup : GLState → GLState) (elapsed : Time)
    (w : Window κ η) (env : Env κ η)
    (hsize : env.gl.scissorTest = false →
      env.surfaceSize.1 < 2 ^ 31 ∧ env.surfaceSize.2 < 2 ^ 31) :
    (drawGUI drawObjectGroup elapsed w env).2.trace
      = env.trace ++
        (if env.gl.scissorTest then
          [Call.clockRestart, Call.emUpdateTime elapsed,
            Call.drawObjectGroup { scissorTest := true, scissorBox := env.gl.scissorBox },
            Call.glScissor env.gl.scissorBox.1 env.gl.scissorBox.2.1
              (env.gl.scissorBox.2.2.1 : Int) (env.gl.scissorBox.2.2.2 : Int)]
        else
          [Call.clockRestart, Call.emUpdateTime elapsed,
            Call.glEnableScissor,
            Call.glScissor 0 0 (env.surfaceSize.1 : Int) (env.surfaceSize.2 : Int),
            Call.drawObjectGroup
              { scissorTest := true,
                scissorBox := (0, 0, env.surfaceSize.1, env.surfaceSize.2) },
            Call.glDisableScissor]) := by
  cases hb : env.gl.scissorTest with
  | true =>
    rw [drawGUI_trace_enabled drawObjectGroup elapsed w env hb, if_pos rfl]
    have hgl : env.gl = { scissorTest := true, scissorBox := env.gl.scissorBox } := by
      rw [← hb]
    rw [← hgl]
  | false =>
    obtain ⟨hW, hH⟩ := hsize hb
    have hr : ¬ ((env.surfaceSize.1 : Int) < 0 ∨ (env.surfaceSize.2 : Int) < 0) := by omega
    rw [drawGUI_trace_disabled drawObjectGroup elapsed w env hb, toGLsizei_of_lt _ hW,
      toGLsizei_of_lt _ hH, if_neg hr]
    simp

theorem drawGUI_draws_from_clip_witness :
    (env0.gl.scissorTest = false →
      env0.surfaceSize.1 < 2 ^ 31 ∧ env0.surfaceSize.2 < 2 ^ 31) ∧
    (drawGUI drawShrinking 16000 w0 env0).2.trace
      = env0.trace ++
        (if env0.gl.scissorTest then
          [Call.clockRestart, Call.emUpdateTime 16000,
            Call.drawObjectGroup { scissorTest := true, scissorBox := env0.gl.scissorBox },
            Call.glScissor env0.gl.scissorBox.1 env0.gl.scissorBox.2.1
              (env0.gl.scissorBox.2.2.1 : Int) (env0.gl.scissorBox.2.2.2 : Int)]
        else
          [Call.clockRestart, Call.emUpdateTime 16000,
            Call.glEnableScissor,
            Call.glScissor 0 0 (env0.surfaceSize.1 : Int) (env0.surfaceSize.2 : Int),
            Call.drawObjectGroup
              { scissorTest := true,
                scissorBox := (0, 0, env0.surfaceSize.1, env0.surfaceSize.2) },
            Call.glDisableScissor]) :=
  ⟨fun _ => ⟨by decide, by decide⟩,
    drawGUI_draws_from_clip drawShrinking 16000 w0 env0 (fun _ => ⟨by decide, by decide⟩)⟩

/-- C17, as the claim has it, fails for a surface size that does not fit `GLsizei`: with the
scissor test off, the box `(1, 2, 3, 4)` and a surface of width `4294967295`, `drawGUI` passes
the width `-1` to `glScissor`, OpenGL ignores the call, and the hierarchy is drawn from the
box `(1, 2, 3, 4)`, not from `(0, 0, 4294967295, 600)`. -/
theorem drawGUI_wide_surface_keeps_box :
    envWide.gl = { scissorTest := false, scissorBox := (1, 2, 3, 4) } ∧
    envWide.surfaceSize = (4294967295, 600) ∧
    (drawGUI drawShrinking 16000 w0 envWide).2.trace
      = [Call.clockRestart, Call.emUpdateTime 16000, Call.glEnableScissor,
          Call.glScissor 0 0 (-1) 600,
          Call.drawObjectGroup { scissorTest := true, scissorBox := (1, 2, 3, 4) },
          Call.glDisableScissor] := by
  decide

/-! ## Double click on a label: claims -/

theorem label_updateTime_string (threshold : Time) (l : Label) (elapsed : Time) :
    (l.updateTime threshold elapsed).m_string = l.m_string := by
  simp only [Label.updateTime]
  split <;> rfl

theorem label_foldl_updateTime_string (threshold : Time) (frames : List Time) (l : Label) :
    (frames.foldl (Label.updateTime threshold) l).m_string = l.m_string := by
  induction frames generalizing l with
  | nil => rfl
  | cons f fs ih => rw [List.foldl_cons, ih, label_updateTime_string]

/-- An idle label stays idle while time passes. -/
theorem label_foldl_updateTime_idle (threshold : Time) (frames : List Time) (l : Label)
    (hl : l.m_possibleDoubleClick = false) :
    (frames.foldl (Label.updateTime threshold) l).m_possibleDoubleClick = false := by
  induction frames generalizing l with
  | nil => exact hl
  | cons f fs ih =>
    rw [List.foldl_cons]
    apply ih
    simp [Label.updateTime, hl]

/-- The wait for the second click is still on when the frames end within the threshold. -/
theorem label_foldl_updateTime_within (threshold : Time) (frames : List Time) (l : Label)
    (hl : l.m_possibleDoubleClick = true) (hf : ∀ f ∈ frames, 0 ≤ f)
    (hs : l.sinceFirstClick + frames.sum ≤ threshold) :
    (frames.foldl (Label.updateTime threshold) l).m_possibleDoubleClick = true := by
  induction frames generalizing l with
  | nil => exact hl
  | cons f fs ih =>
    rw [List.foldl_cons]
    have hfs : ∀ g ∈ fs, 0 ≤ g := fun g hg => hf g (List.mem_cons_of_mem f hg)
    have hsum : 0 ≤ fs.sum := List.sum_nonneg hfs
    rw [List.sum_cons] at hs
    have hnot : ¬ threshold < l.sinceFirstClick + f := not_lt.mpr (by linarith)
    have hstep : l.updateTime threshold f
        = { l with sinceFirstClick := l.sinceFirstClick + f } := by
      simp [Label.updateTime, hnot]
    rw [hstep]
    exact ih _ hl hfs (by show l.sinceFirstClick + f + fs.sum ≤ threshold; linarith)

/-- The wait for the second click is over when the frames end beyond the threshold. -/
theorem label_foldl_updateTime_expired (threshold : Time) (frames : List Time) (l : Label)
    (h0 : l.sinceFirstClick ≤ threshold)
    (hs : threshold < l.sinceFirstClick + frames.sum) :
    (frames.foldl (Label.updateTime threshold) l).m_possibleDoubleClick = false := by
  induction frames generalizing l with
  | nil =>
    simp only [List.sum_nil, add_zero] at hs
    exact absurd hs (not_lt.mpr h0)
  | cons f fs ih =>
    rw [List.foldl_cons]
    rw [List.sum_cons] at hs
    cases hl : l.m_possibleDoubleClick with
    | false =>
      apply label_foldl_updateTime_idle
      simp [Label.updateTime, hl]
    | true =>
      by_cases hlt : threshold < l.sinceFirstClick + f
      · apply label_foldl_updateTime_idle
        simp [Label.updateTime, hl, hlt]
      · have hstep : l.updateTime threshold f
            = { l with sinceFirstClick := l.sinceFirstClick + f } := by
          simp [Label.updateTime, hlt]
        rw [hstep]
        exact ih _ (not_lt.mp hlt)
          (by show threshold < l.sinceFirstClick + f + fs.sum; linarith)

/-- C15: for a positive threshold and a label in the Idle state, a release, frames that add up
to `0.3 × threshold`, and a second release emit exactly one callback, `DoubleClicked` with the
text of the label, and leave the label in Idle; when the frames add up to `1.5 × threshold`
instead, the two releases emit no callback. -/
theorem label_double_click_within_threshold (threshold : Time) (l : Label)
    (frames₁ frames₂ : List Time) (hth : 0 < threshold)
    (hidle : l.m_possibleDoubleClick = false)
    (hf₁ : ∀ f ∈ frames₁, 0 ≤ f)
    (hs₁ : 10 * frames₁.sum = 3 * threshold) (hs₂ : 2 * frames₂.sum = 3 * threshold) :
    (l.releaseTwice threshold frames₁).2 = [LabelCallback.DoubleClicked l.m_string] ∧
    (l.releaseTwice threshold frames₁).1.m_possibleDoubleClick = false ∧
    (l.releaseTwice threshold frames₂).2 = [] := by
  have hfirst : l.leftMouseReleased
      = ({ l with m_possibleDoubleClick := true, sinceFirstClick := 0 }, []) := by
    simp [Label.leftMouseReleased, hidle]
  have hw₁ := label_foldl_updateTime_within threshold frames₁
    { l with m_possibleDoubleClick := true, sinceFirstClick := 0 } rfl hf₁
    (by show (0 : Int) + frames₁.sum ≤ threshold; linarith)
  have hw₂ := label_foldl_updateTime_expired threshold frames₂
    { l with m_possibleDoubleClick := true, sinceFirstClick := 0 }
    (by show (0 : Int) ≤ threshold; linarith)
    (by show threshold < (0 : Int) + frames₂.sum; linarith)
  have hstr := label_foldl_updateTime_string threshold frames₁
    { l with m_possibleDoubleClick := true, sinceFirstClick := 0 }
  simp only [Label.releaseTwice, hfirst]
  simp only [Label.leftMouseReleased, hw₁, hw₂, hstr, if_true, List.nil_append,
    Bool.false_eq_true, if_false, and_self]

theorem label_double_click_within_threshold_witness :
    (0 : Time) < 500000 ∧ label0.m_possibleDoubleClick = false ∧
    (∀ f ∈ [100000, 50000], (0 : Time) ≤ f) ∧
    10 * ([100000, 50000] : List Time).sum = 3 * 500000 ∧
    2 * ([400000, 350000] : List Time).sum = 3 * 500000 ∧
    ((label0.releaseTwice 500000 [100000, 50000]).2
        = [LabelCallback.DoubleClicked label0.m_string] ∧
      (label0.releaseTwice 500000 [100000, 50000]).1.m_possibleDoubleClick = false ∧
      (label0.releaseTwice 500000 [400000, 350000]).2 = []) :=
  ⟨by decide, rfl, by decide, by decide, by decide,
    label_double_click_within_threshold 500000 label0 [100000, 50000] [400000, 350000]
      (by decide) rfl (by decide) (by decide) (by decide)⟩

/-! ## Pass-through members: claims -/

/-- The `unsigned int` 16777217 lies halfway between two `float`s and converts to
`16777216.0f`. -/
theorem round32_16777217 : round32 (16777217 : ℚ) = 16777216 := by
  rw [round32_of_binade _ 24 (by norm_num)
    (by rw [abs_of_pos (by norm_num)]; norm_num) (by rw [abs_of_pos (by norm_num)]; norm_num)]
  have ht : (16777217 : ℚ) / (2 : ℚ) ^ ((24 : Int) - 23)
      = ((8388608 : Int) : ℚ) + 1 / 2 := by norm_num
  rw [ht, roundHalfEven_tie]
  norm_num

/-- C16: every pass-through member of `Window` makes exactly one call on the render surface,
the operation of the same name with the same arguments (`getDisplaySize` calls `getSize`),
returns what that call returns (a `void` member returns nothing), and changes neither the
window (callback queue, global handler list, ownership flag) nor anything else in the
environment: the call on the surface is the only call logged, so the event manager is not
called. `getDisplaySize` returns the surface size `(x, y)` converted to floats, that is, the
pair of the `float`s nearest to `x` and `y`: `(800, 600)` comes back as `(800.0f, 600.0f)` and
`(16777217, 600)` as `(16777216.0f, 600.0f)`. -/
theorem passThrough_delegates (surface : SurfaceCall → Value) (op : PassThrough)
    (w : Window κ η) (env : Env κ η) (x y : Nat) :
    op.run surface w env
      = (op.expectedResult (surface op.expectedCall), w,
          { env with trace := env.trace ++ [Call.surface op.expectedCall] }) ∧
    op.expectedCall.args = op.args ∧
    op.expectedCall.name
      = (if op = PassThrough.getDisplaySize then "getSize" else op.name) ∧
    op.expectedResult (surface op.expectedCall)
      = (if op.isVoid then Value.void
        else if op = PassThrough.getDisplaySize then
          (match surface { name := "getSize", args := [] } with
            | Value.vector2u a b => Value.vector2f (round32 (a : ℚ)) (round32 (b : ℚ))
            | other => other)
        else surface { name := op.name, args := op.args }) ∧
    (PassThrough.getDisplaySize.run (fun _ => Value.vector2u x y) w env).1
      = Value.vector2f (round32 (x : ℚ)) (round32 (y : ℚ)) ∧
    (PassThrough.getDisplaySize.run (fun _ => Value.vector2u 800 600) w env).1
      = Value.vector2f 800 600 ∧
    (PassThrough.getDisplaySize.run (fun _ => Value.vector2u 16777217 600) w env).1
      = Value.vector2f 16777216 600 := by
  have h800 : round32 (((800 : Nat) : ℚ)) = 800 := by
    have h := round32_intCast 800 (by rw [abs_of_pos (by norm_num)]; norm_num)
    simpa using h
  have h600 : round32 (((600 : Nat) : ℚ)) = 600 := by
    have h := round32_intCast 600 (by rw [abs_of_pos (by norm_num)]; norm_num)
    simpa using h
  have hbig : round32 (((16777217 : Nat) : ℚ)) = 16777216 := by
    simpa using round32_16777217
  refine ⟨?_, rfl, rfl, ?_, rfl, ?_, ?_⟩
  · cases op <;> rfl
  · cases op <;> rfl
  · show Value.vector2f (round32 ((800 : Nat) : ℚ)) (round32 ((600 : Nat) : ℚ))
      = Value.vector2f 800 600
    rw [h800, h600]
  · show Value.vector2f (round32 ((16777217 : Nat) : ℚ)) (round32 ((600 : Nat) : ℚ))
      = Value.vector2f 16777216 600
    rw [hbig, h600]

/-! ## Flags of the window: claims -/

/-- No member function of `Window.cpp` other than a constructor writes `m_GroupFocused` or
`m_OwningWindow`. -/
theorem windowOp_apply_flags (op : WindowOp κ η) (s : Window κ η × Env κ η) :
    (op.apply s).1.m_GroupFocused = s.1.m_GroupFocused ∧
    (op.apply s).1.m_OwningWindow = s.1.m_OwningWindow := by
  cases op with
  | handleEvent mapPixelToCoords event =>
    have h := (handleEvent_received mapPixelToCoords s.1 s.2 event).1
    simp only [WindowOp.apply, h, and_self]
  | drawGUI drawObjectGroup elapsed => exact ⟨rfl, rfl⟩
  | pollCallback callback =>
    simp only [WindowOp.apply, tgui.pollCallback]
    split <;> exact ⟨rfl, rfl⟩
  | updateTime elapsedTime => exact ⟨rfl, rfl⟩
  | addChildCallback callback =>
    simp only [WindowOp.apply, tgui.addChildCallback]
    split <;> exact ⟨rfl, rfl⟩
  | passThrough surface op => cases op <;> exact ⟨rfl, rfl⟩

theorem applyOps_flags (ops : List (WindowOp κ η)) (s : Window κ η × Env κ η) :
    (applyOps ops s).1.m_GroupFocused = s.1.m_GroupFocused ∧
    (applyOps ops s).1.m_OwningWindow = s.1.m_OwningWindow := by
  induction ops generalizing s with
  | nil => exact ⟨rfl, rfl⟩
  | cons op ops ih =>
    have hstep : applyOps (op :: ops) s = applyOps ops (op.apply s) := rfl
    obtain ⟨h1, h2⟩ := windowOp_apply_flags op s
    obtain ⟨i1, i2⟩ := ih (op.apply s)
    rw [hstep, i1, i2, h1, h2]
    exact ⟨rfl, rfl⟩

/-- C19: each of the four constructors yields a window with `m_GroupFocused` set and an empty
callback queue, so the first `pollCallback` on it returns `false`; and after any sequence of
calls of `handleEvent`, `drawGUI`, `pollCallback`, `updateTime`, `addChildCallback` and the
pass-through members, `m_GroupFocused` and `m_OwningWindow` have the values they had before
it. -/
theorem constructed_focused_flags_kept (env : Env κ η) (window : SurfaceId)
    (width height bitsPerPixel style settings handle : Nat) (title : String) (callback : κ)
    (ops : List (WindowOp κ η)) (w : Window κ η) :
    ((Window.Window_default env).1.m_GroupFocused = true ∧
      (Window.Window_default env).1.m_Callback = [] ∧
      (pollCallback (Window.Window_default env).1 callback).1 = false) ∧
    ((Window.Window_window window env).1.m_GroupFocused = true ∧
      (Window.Window_window window env).1.m_Callback = [] ∧
      (pollCallback (Window.Window_window window env).1 callback).1 = false) ∧
    ((Window.Window_mode width height bitsPerPixel title style settings env).1.m_GroupFocused
        = true ∧
      (Window.Window_mode width height bitsPerPixel title style settings env).1.m_Callback
        = [] ∧
      (pollCallback (Window.Window_mode width height bitsPerPixel title style settings env).1
        callback).1 = false) ∧
    ((Window.Window_handle handle settings env).1.m_GroupFocused = true ∧
      (Window.Window_handle handle settings env).1.m_Callback = [] ∧
      (pollCallback (Window.Window_handle handle settings env).1 callback).1 = false) ∧
    (applyOps ops (w, env)).1.m_GroupFocused = w.m_GroupFocused ∧
    (applyOps ops (w, env)).1.m_OwningWindow = w.m_OwningWindow :=
  ⟨⟨rfl, rfl, rfl⟩, ⟨rfl, rfl, rfl⟩, ⟨rfl, rfl, rfl⟩, ⟨rfl, rfl, rfl⟩,
    applyOps_flags ops (w, env)⟩

end tgui
